import Mathlib

/-! WebCompare: element-value extraction and snapshot comparison

A shallow embedding of `src/webcompare.js`.

* `JSValue` is the JSON fragment of JavaScript values: what `page.evaluate` can
  hand back and what a stored `Value` of a monitor can hold.  Strings are
  sequences of Unicode scalar values (well-formed strings); numbers are the
  integers, printed in decimal.  An object lists its own enumerable properties
  in enumeration order, which is the order `JSON.stringify` follows.
* `stringify` is `JSON.stringify` on that fragment.
* `JSObject` / `assign` model the object that `evaluateElement` fills with
  `obj[key] = value`, following the ordinary `[[Set]]` of ECMAScript on an
  object created by `{}`.
* `Element`, `Document` and `Puppeteer` are the external collaborators: the DOM
  the page function reads and the browser that is launched and navigated.
* `evaluateElement`, `pageFunction`, `getElementDetails`, `navigateToPage`,
  `compareWebContent` follow the source functions of the same names.
-/

namespace WebCompare

/-! ## JavaScript values -/

/-- The JSON fragment of JavaScript values.  `obj` carries the own enumerable
string-keyed properties in enumeration order. -/
inductive JSValue where
  | null
  | bool (b : Bool)
  | num (n : Int)
  | str (s : String)
  | arr (xs : List JSValue)
  | obj (ps : List (String × JSValue))

/-- A DOM value of type `DOMString?`: `none` is JavaScript `null`. -/
def JSValue.ofNullable : Option String → JSValue
  | none => JSValue.null
  | some s => JSValue.str s

/-! ## `JSON.stringify` -/

/-- The escape of one character in `QuoteJSONString`: the two-character escapes
for backspace, tab, line feed, form feed, carriage return, the double quote and
the backslash, `\u00xx` with lowercase hexadecimal digits for the other control
characters below U+0020, and the character itself otherwise. -/
def escapeChar (c : Char) : List Char :=
  if c = '"' then ['\\', '"']
  else if c = '\\' then ['\\', '\\']
  else if c = '\x08' then ['\\', 'b']
  else if c = '\x0c' then ['\\', 'f']
  else if c = '\n' then ['\\', 'n']
  else if c = '\r' then ['\\', 'r']
  else if c = '\t' then ['\\', 't']
  else if c.toNat < 32 then
    ['\\', 'u', '0', '0', Nat.digitChar (c.toNat / 16), Nat.digitChar (c.toNat % 16)]
  else [c]

/-- The escapes of the characters of a string, concatenated. -/
def escapeChars : List Char → List Char
  | [] => []
  | c :: cs => escapeChar c ++ escapeChars cs

/-- The `QuoteJSONString` of ECMAScript: the escaped characters between two double quotes. -/
def quoteJSONString (s : String) : List Char :=
  '"' :: (escapeChars s.toList ++ ['"'])

/-- The `Number::toString` of an integer: decimal digits, with a leading minus sign
for a negative number. -/
def numberToChars : Int → List Char
  | Int.ofNat m => Nat.toDigits 10 m
  | Int.negSucc m => '-' :: Nat.toDigits 10 (m + 1)

mutual
/-- The `SerializeJSONProperty` of ECMAScript, without indentation: the characters of
`JSON.stringify(v)`.  An array is `[` items separated by `,` and `]`; an object
is `{`, its properties as `"key":value` in enumeration order separated by `,`,
and `}`. -/
def JSValue.enc : JSValue → List Char
  | JSValue.null => ['n', 'u', 'l', 'l']
  | JSValue.bool true => ['t', 'r', 'u', 'e']
  | JSValue.bool false => ['f', 'a', 'l', 's', 'e']
  | JSValue.num n => numberToChars n
  | JSValue.str s => quoteJSONString s
  | JSValue.arr [] => ['[', ']']
  | JSValue.arr (x :: xs) => '[' :: (JSValue.enc x ++ JSValue.encItems xs)
  | JSValue.obj [] => ['{', '}']
  | JSValue.obj ((k, v) :: ps) =>
      '{' :: (quoteJSONString k ++ ':' :: (JSValue.enc v ++ JSValue.encProps ps))
/-- The items of an array after the first one, each preceded by `,`, and the
closing bracket. -/
def JSValue.encItems : List JSValue → List Char
  | [] => [']']
  | x :: xs => ',' :: (JSValue.enc x ++ JSValue.encItems xs)
/-- The properties of an object after the first one, each preceded by `,`, and
the closing brace. -/
def JSValue.encProps : List (String × JSValue) → List Char
  | [] => ['}']
  | (k, v) :: ps =>
      ',' :: (quoteJSONString k ++ ':' :: (JSValue.enc v ++ JSValue.encProps ps))
end

/-- The string `JSON.stringify(v)`. -/
def stringify (v : JSValue) : String := String.mk (JSValue.enc v)

/-! ## Objects under construction: `obj[key] = value` -/

/-- The value of a string of decimal digits read left to right. -/
def digitsValue (cs : List Char) : Nat :=
  cs.foldl (fun n c => 10 * n + (c.toNat - 48)) 0

/-- The array index a property key denotes, if any: the key is the canonical
decimal numeral (no leading zero, `"0"` apart) of an integer below `2^32 - 1`. -/
def arrayIndex? (k : String) : Option Nat :=
  match k.toList with
  | [] => none
  | c :: cs =>
    if (c :: cs).all Char.isDigit && (c != '0' || cs.isEmpty)
        && decide (digitsValue (c :: cs) < 4294967295) then
      some (digitsValue (c :: cs))
    else none

/-- An object created by `{}` inside the page: its own properties in
enumeration order (array indices ascending first, then the other keys in
creation order), and whether its prototype has been set to `null`. -/
structure JSObject where
  nullProto : Bool
  props : List (String × JSValue)

/-- The object literal `{}`: no own property, prototype `Object.prototype`. -/
def JSObject.empty : JSObject := { nullProto := false, props := [] }

/-- Insertion of a new array-index key: after the array indices below it and
before everything else. -/
def insertIndex (k : String) (i : Nat) (v : JSValue) :
    List (String × JSValue) → List (String × JSValue)
  | [] => [(k, v)]
  | p :: ps =>
    match arrayIndex? p.1 with
    | some j => if j < i then p :: insertIndex k i v ps else (k, v) :: p :: ps
    | none => (k, v) :: p :: ps

/-- Own-property definition `CreateDataProperty`/overwrite: an existing key
keeps its place and takes the new value; a new array index is inserted in
ascending order; any other new key is appended. -/
def defineOwn (ps : List (String × JSValue)) (k : String) (v : JSValue) :
    List (String × JSValue) :=
  if ps.any (fun p => p.1 == k) then
    ps.map (fun p => if p.1 == k then (p.1, v) else p)
  else
    match arrayIndex? k with
    | some i => insertIndex k i v ps
    | none => ps ++ [(k, v)]

/-- The assignment `o[k] = v` of a string or `null` to an object created by
`{}`.  For the key `__proto__`, as long as the object still inherits from
`Object.prototype`, the assignment reaches the inherited accessor
`Object.prototype.__proto__`: its setter ignores a string and, for `null`, sets
the prototype to `null`; in neither case is an own property created.  Every
other assignment defines or overwrites an own property. -/
def JSObject.assign (o : JSObject) (k : String) (v : Option String) : JSObject :=
  if k = "__proto__" ∧ o.nullProto = false then
    match v with
    | none => { o with nullProto := true }
    | some _ => o
  else
    { o with props := defineOwn o.props k (JSValue.ofNullable v) }

/-- The JSON value `page.evaluate` returns for an object: its own enumerable
properties (the prototype is not part of the serialized value). -/
def JSObject.toValue (o : JSObject) : JSValue := JSValue.obj o.props

/-! ## The DOM and the browser -/

/-- A child element, as far as the page function reads it. -/
structure Child where
  outerHTML : String

/-- An element, as far as the page function reads it: `textContent`
(`DOMString?`), `getAttribute` (a string, or `null` when the attribute is not
set), the computed style (`styleNames` are the property names
`Array.from(computedStyle)` enumerates, `styleValue name` is
`computedStyle[name]`), and the child elements in document order. -/
structure Element where
  textContent : Option String
  getAttribute : String → Option String
  styleNames : List String
  styleValue : String → String
  children : List Child

/-- The ways a run can fail. -/
inductive Failure where
  | launch
  | newPage
  | navigation
  | extraction
  deriving DecidableEq, Repr

/-- A loaded document: `querySelector` returns the first matching element, `null`
(`none`) when there is none, or throws (a selector that is not valid). -/
structure Document where
  querySelector : String → Except Failure (Option Element)

/-- The browser automation library: whether `launch` and `newPage` succeed, and
the document `page.goto` loads for a URL (`none` when navigation fails). -/
structure Puppeteer where
  launch : Bool
  newPage : Bool
  goto : String → Option Document

/-- What has happened to the browser process. -/
inductive BrowserState where
  | notLaunched
  | running
  | closed
  deriving DecidableEq, Repr

/-! ## The monitor and the report -/

/-- The `Monitor` typedef of the source (`Type_` is its property `Type`). -/
structure Monitor where
  MonitorID : Int
  Selector : String
  Type_ : String
  Attributes : List String
  Value : JSValue

/-- The object literal `compareWebContent` returns for a changed monitor:
`...comparison` copies the five properties of the monitor, `Selector`, `Type`
and `Attributes` are then written again, and `ExpectedValue` and `CurrentValue`
are added. -/
structure Report where
  MonitorID : Int
  Selector : String
  Type_ : String
  Attributes : List String
  Value : JSValue
  ExpectedValue : JSValue
  CurrentValue : JSValue

/-! ## The source functions -/

/-- The inner `evaluateElement` of `getElementDetails`. -/
def evaluateElement (element : Element) (type : String) (attributes : List String) :
    JSValue :=
  if type = "text" then
    -- element.textContent || null
    match element.textContent with
    | some s => if s = "" then JSValue.null else JSValue.str s
    | none => JSValue.null
  else if type = "attribute" then
    (attributes.foldl (fun attributesDetails attr =>
      attributesDetails.assign attr (element.getAttribute attr)) JSObject.empty).toValue
  else if type = "style" then
    JSValue.obj [("style",
      (element.styleNames.foldl (fun acc propName =>
        acc.assign propName (some (element.styleValue propName))) JSObject.empty).toValue)]
  else if type = "children" then
    JSValue.obj [("children",
      JSValue.str (String.join (element.children.map (fun child => child.outerHTML))))]
  else if type = "custom" then
    JSValue.obj [("custom", JSValue.obj [])]
  else
    JSValue.obj []

/-- The function `getElementDetails` runs inside the page. -/
def pageFunction (document : Document) (selector type : String)
    (attributes : List String) : Except Failure JSValue :=
  match document.querySelector selector with
  | Except.error e => Except.error e
  | Except.ok none => Except.ok (JSValue.obj [])
  | Except.ok (some element) => Except.ok (evaluateElement element type attributes)

/-- The source's `getElementDetails(page, comparisonDetails)`. -/
def getElementDetails (page : Document) (comparisonDetails : Monitor) :
    Except Failure JSValue :=
  pageFunction page comparisonDetails.Selector comparisonDetails.Type_
    comparisonDetails.Attributes

/-- The source's `navigateToPage(url)`: the page on success, and the state the
browser is left in. -/
def navigateToPage (puppeteer : Puppeteer) (url : String) :
    Except Failure Document × BrowserState :=
  if puppeteer.launch = false then (Except.error Failure.launch, BrowserState.notLaunched)
  else if puppeteer.newPage = false then (Except.error Failure.newPage, BrowserState.running)
  else
    match puppeteer.goto url with
    | none => (Except.error Failure.navigation, BrowserState.running)
    | some page => (Except.ok page, BrowserState.running)

/-- The comparison of `compareWebContent`:
`JSON.stringify(currentDetails) !== JSON.stringify(comparison.Value)`. -/
def differs (currentDetails expected : JSValue) : Bool :=
  stringify currentDetails != stringify expected

/-- The report built for a changed monitor. -/
def mkReport (comparison : Monitor) (currentDetails : JSValue) : Report :=
  { MonitorID := comparison.MonitorID
    Selector := comparison.Selector
    Type_ := comparison.Type_
    Attributes := comparison.Attributes
    Value := comparison.Value
    ExpectedValue := comparison.Value
    CurrentValue := currentDetails }

/-- The callback `compareWebContent` maps over the monitors: `none` stands for
the `undefined` an unchanged monitor yields. -/
def compareOne (page : Document) (comparison : Monitor) : Except Failure (Option Report) :=
  match getElementDetails page comparison with
  | Except.error e => Except.error e
  | Except.ok currentDetails =>
    if differs currentDetails comparison.Value then
      Except.ok (some (mkReport comparison currentDetails))
    else Except.ok none

/-- The `Promise.all` over the callbacks: the results in input order, or a failure
as soon as one callback fails. -/
def promiseAll (page : Document) : List Monitor → Except Failure (List (Option Report))
  | [] => Except.ok []
  | comparison :: rest =>
    match compareOne page comparison with
    | Except.error e => Except.error e
    | Except.ok r =>
      match promiseAll page rest with
      | Except.error e => Except.error e
      | Except.ok rs => Except.ok (r :: rs)

/-- The source's `compareWebContent(url, comparisons)`: the returned list (or the
failure thrown) and the state the browser is left in. -/
def compareWebContent (puppeteer : Puppeteer) (url : String) (comparisons : List Monitor) :
    Except Failure (List Report) × BrowserState :=
  match navigateToPage puppeteer url with
  | (Except.error e, browser) => (Except.error e, browser)
  | (Except.ok page, browser) =>
    match promiseAll page comparisons with
    | Except.error e => (Except.error e, browser)
    | Except.ok results =>
      -- await browser.close(); results.filter(result => result !== undefined)
      (Except.ok (results.filterMap id), BrowserState.closed)


/-! ## Reading an encoding back -/

/-- The value of a hexadecimal digit character. -/
def hexValue (c : Char) : Nat :=
  if c.isDigit then c.toNat - 48 else c.toNat - 87

/-- The code of the character that the escape at the front of `l` stands for, and
the characters after that escape. -/
def unescapeCode : List Char → Option (Nat × List Char)
  | [] => none
  | c :: r =>
    if c = '\\' then
      match r with
      | [] => none
      | e :: r1 =>
        if e = '"' then some (34, r1)
        else if e = '\\' then some (92, r1)
        else if e = 'b' then some (8, r1)
        else if e = 'f' then some (12, r1)
        else if e = 'n' then some (10, r1)
        else if e = 'r' then some (13, r1)
        else if e = 't' then some (9, r1)
        else
          match r1 with
          | _ :: _ :: a :: b :: r2 => some (16 * hexValue a + hexValue b, r2)
          | _ => none
    else some (c.toNat, r)

/-- A continuation that cannot be mistaken for more digits of a number. -/
def Terminated (r : List Char) : Prop :=
  ∀ c ∈ r.head?, c.isDigit = false

/-- The kind of a value, as a number: `null`, `true`, `false`, number, string,
array, object. -/
def JSValue.cls : JSValue → Nat
  | JSValue.null => 0
  | JSValue.bool true => 1
  | JSValue.bool false => 2
  | JSValue.num _ => 3
  | JSValue.str _ => 4
  | JSValue.arr _ => 5
  | JSValue.obj _ => 6

/-- The kind of value whose encoding can start with the character `c`; `7` when
no encoding starts with it. -/
def headClass (c : Char) : Nat :=
  if c = 'n' then 0
  else if c = 't' then 1
  else if c = 'f' then 2
  else if c.isDigit = true ∨ c = '-' then 3
  else if c = '"' then 4
  else if c = '[' then 5
  else if c = '{' then 6
  else 7

/-- Whether the value extracted for a monitor has an encoding other than that of
its stored `Value` (`false` when the extraction fails). -/
def valueChanged (page : Document) (c : Monitor) : Bool :=
  match getElementDetails page c with
  | Except.ok v => decide (stringify v ≠ stringify c.Value)
  | Except.error _ => false

/-- The keys of a mapping, in enumeration order (no keys for a value that is not
an object). -/
def JSValue.keys : JSValue → List String
  | JSValue.obj ps => ps.map Prod.fst
  | _ => []

/-! ## Scenarios -/

/-- An element with the given text content and nothing else. -/
def Scenario.textElement (text : Option String) : Element :=
  { textContent := text
    getAttribute := fun _ => none
    styleNames := []
    styleValue := fun _ => ""
    children := [] }

/-- A document in which `selector` matches `element` and no other selector
matches anything. -/
def Scenario.pageWith (selector : String) (element : Element) : Document :=
  { querySelector := fun s => if s = selector then Except.ok (some element) else Except.ok none }

/-- A browser that launches and loads `page` for every URL. -/
def Scenario.browser (page : Document) : Puppeteer :=
  { launch := true, newPage := true, goto := fun _ => some page }

/-- The monitor of scenarios 1 and 2: `{MonitorID: 1, Selector: "#title",
Type: "text", Value: "Hello"}`. -/
def Scenario.titleMonitor : Monitor :=
  { MonitorID := 1, Selector := "#title", Type_ := "text", Attributes := [],
    Value := JSValue.str "Hello" }

/-- The monitor of scenario 4: `{MonitorID: 3, Selector: "#missing", Type: "text",
Value: {}}`. -/
def Scenario.missingMonitor : Monitor :=
  { MonitorID := 3, Selector := "#missing", Type_ := "text", Attributes := [],
    Value := JSValue.obj [] }

/-- The element `img#logo` of scenario 3: its only attribute is
`src="/new.png"`. -/
def Scenario.logoElement : Element :=
  { textContent := some ""
    getAttribute := fun name => if name = "src" then some "/new.png" else none
    styleNames := []
    styleValue := fun _ => ""
    children := [] }

/-- The monitor of scenario 3: `{MonitorID: 2, Selector: "img#logo",
Type: "attribute", Attributes: ["src"], Value: {src: "/old.png"}}`. -/
def Scenario.logoMonitor : Monitor :=
  { MonitorID := 2, Selector := "img#logo", Type_ := "attribute", Attributes := ["src"],
    Value := JSValue.obj [("src", JSValue.str "/old.png")] }

/-- An attribute monitor asking for the attribute named `__proto__`, with the
empty mapping stored: `{MonitorID: 4, Selector: "img#logo", Type: "attribute",
Attributes: ["__proto__"], Value: {}}`. -/
def Scenario.protoMonitor : Monitor :=
  { MonitorID := 4, Selector := "img#logo", Type_ := "attribute",
    Attributes := ["__proto__"], Value := JSValue.obj [] }

/-- A text monitor whose stored value is the empty string:
`{MonitorID: 5, Selector: "#title", Type: "text", Value: ""}`. -/
def Scenario.emptyTextMonitor : Monitor :=
  { MonitorID := 5, Selector := "#title", Type_ := "text", Attributes := [],
    Value := JSValue.str "" }

/-- A monitor of a kind the source does not know:
`{MonitorID: 6, Selector: "#title", Type: "html", Value: {custom: {}}}`. -/
def Scenario.unknownMonitor : Monitor :=
  { MonitorID := 6, Selector := "#title", Type_ := "html", Attributes := [],
    Value := JSValue.obj [("custom", JSValue.obj [])] }

/-- An element that carries an attribute named `__proto__`, with value `x`. -/
def Scenario.protoElement : Element :=
  { textContent := some ""
    getAttribute := fun name => if name = "__proto__" then some "x" else none
    styleNames := []
    styleValue := fun _ => ""
    children := [] }

/-! ## Further notions used to state the claims -/

/-- The report a monitor gives rise to on a page, if any: the report of its
extracted value when that value differs from the stored one, and none when the
values agree or the extraction fails. -/
def reportOf (page : Document) (c : Monitor) : Option Report :=
  match getElementDetails page c with
  | Except.ok v => if differs v c.Value = true then some (mkReport c v) else none
  | Except.error _ => none

/-- The own properties of a monitor object that has exactly the properties of
the `Monitor` typedef. -/
def Monitor.toObject (c : Monitor) : List (String × JSValue) :=
  [("MonitorID", JSValue.num c.MonitorID), ("Selector", JSValue.str c.Selector),
    ("Type", JSValue.str c.Type_),
    ("Attributes", JSValue.arr (c.Attributes.map JSValue.str)),
    ("Value", c.Value)]

/-- The object literal of `compareWebContent`, property by property:
`...comparison` copies the own properties of the monitor in order, then
`Selector`, `Type`, `Attributes`, `ExpectedValue` and `CurrentValue` are defined
in turn. -/
def reportLiteral (comparison : Monitor) (currentDetails : JSValue) :
    List (String × JSValue) :=
  let spread := comparison.toObject.foldl (fun o p => defineOwn o p.1 p.2) []
  let o1 := defineOwn spread "Selector" (JSValue.str comparison.Selector)
  let o2 := defineOwn o1 "Type" (JSValue.str comparison.Type_)
  let o3 := defineOwn o2 "Attributes" (JSValue.arr (comparison.Attributes.map JSValue.str))
  let o4 := defineOwn o3 "ExpectedValue" comparison.Value
  defineOwn o4 "CurrentValue" currentDetails

/-- The own properties of a report, in enumeration order. -/
def Report.toObject (r : Report) : List (String × JSValue) :=
  [("MonitorID", JSValue.num r.MonitorID), ("Selector", JSValue.str r.Selector),
    ("Type", JSValue.str r.Type_),
    ("Attributes", JSValue.arr (r.Attributes.map JSValue.str)),
    ("Value", r.Value), ("ExpectedValue", r.ExpectedValue),
    ("CurrentValue", r.CurrentValue)]

/-- A document whose `querySelector` throws on the selector `!!` (not a valid
selector), matches `element` on `selector` and nothing otherwise. -/
def Scenario.strictPage (selector : String) (element : Element) : Document :=
  { querySelector := fun s =>
      if s = "!!" then Except.error Failure.extraction
      else if s = selector then Except.ok (some element) else Except.ok none }

/-- A monitor whose selector is not valid:
`{MonitorID: 7, Selector: "!!", Type: "text", Value: "Hello"}`. -/
def Scenario.brokenMonitor : Monitor :=
  { MonitorID := 7, Selector := "!!", Type_ := "text", Attributes := [],
    Value := JSValue.str "Hello" }

/-- A browser that launches and opens a page, and whose navigation fails for
every URL. -/
def Scenario.offlineBrowser : Puppeteer :=
  { launch := true, newPage := true, goto := fun _ => none }

/-- A monitor that expects the text `Bye` in `#title`:
`{MonitorID: 8, Selector: "#title", Type: "text", Value: "Bye"}`. -/
def Scenario.byeMonitor : Monitor :=
  { MonitorID := 8, Selector := "#title", Type_ := "text", Attributes := [],
    Value := JSValue.str "Bye" }

/-- A list element with two items as children. -/
def Scenario.listElement : Element :=
  { textContent := some "ab"
    getAttribute := fun _ => none
    styleNames := []
    styleValue := fun _ => ""
    children := [Child.mk "<li>a</li>", Child.mk "<li>b</li>"] }

/-- A children monitor on `ul#list` that stores the bare markup string:
`{MonitorID: 9, Selector: "ul#list", Type: "children",
Value: "<li>a</li><li>b</li>"}`. -/
def Scenario.listMonitor : Monitor :=
  { MonitorID := 9, Selector := "ul#list", Type_ := "children", Attributes := [],
    Value := JSValue.str "<li>a</li><li>b</li>" }

/-- An element without children that carries the attribute
`children="<li>a</li><li>b</li>"`. -/
def Scenario.childrenAttributeElement : Element :=
  { textContent := some ""
    getAttribute := fun name => if name = "children" then some "<li>a</li><li>b</li>" else none
    styleNames := []
    styleValue := fun _ => ""
    children := [] }

/-- An attribute monitor asking for the attribute named `children`:
`{MonitorID: 10, Selector: "div#x", Type: "attribute", Attributes: ["children"],
Value: {children: "<li>a</li><li>b</li>"}}`. -/
def Scenario.childrenAttributeMonitor : Monitor :=
  { MonitorID := 10, Selector := "div#x", Type_ := "attribute", Attributes := ["children"],
    Value := JSValue.obj [("children", JSValue.str "<li>a</li><li>b</li>")] }

/-- A children monitor on `ul#list` that stores the wrapped markup:
`{MonitorID: 11, Selector: "ul#list", Type: "children",
Value: {children: "<li>a</li><li>b</li>"}}`. -/
def Scenario.wrappedListMonitor : Monitor :=
  { MonitorID := 11, Selector := "ul#list", Type_ := "children", Attributes := [],
    Value := JSValue.obj [("children", JSValue.str "<li>a</li><li>b</li>")] }

/-! ## Decoding lemmas for `JSON.stringify` -/

theorem digitChar_inj16 : ∀ a < 16, ∀ b < 16, Nat.digitChar a = Nat.digitChar b → a = b := by
  decide

theorem digitChar_value : ∀ a < 10, (Nat.digitChar a).toNat - 48 = a ∧ (Nat.digitChar a).isDigit = true := by
  decide

theorem escapeChar_head (c : Char) :
    ∃ h t, escapeChar c = h :: t ∧ h ≠ '"' := by
  unfold escapeChar
  split_ifs with h1 h2 h3 h4 h5 h6 h7 h8
  all_goals first
    | exact ⟨_, _, rfl, by decide⟩
    | exact ⟨_, _, rfl, h1⟩

theorem char_eq_of_toNat_eq {c d : Char} (h : c.toNat = d.toNat) : c = d := by
  apply Char.ext
  apply UInt32.ext
  exact h

theorem hexValue_digitChar : ∀ a < 16, hexValue (Nat.digitChar a) = a := by
  decide

theorem unescapeCode_escapeChar (c : Char) (r : List Char) :
    unescapeCode (escapeChar c ++ r) = some (c.toNat, r) := by
  unfold escapeChar
  split_ifs with h1 h2 h3 h4 h5 h6 h7 h8
  · subst h1; rfl
  · subst h2; rfl
  · subst h3; rfl
  · subst h4; rfl
  · subst h5; rfl
  · subst h6; rfl
  · subst h7; rfl
  · have e1 := hexValue_digitChar (c.toNat / 16) (by omega)
    have e2 := hexValue_digitChar (c.toNat % 16) (by omega)
    simp only [List.cons_append, List.nil_append, unescapeCode]
    rw [if_pos trivial, if_neg (by decide), if_neg (by decide), if_neg (by decide),
      if_neg (by decide), if_neg (by decide), if_neg (by decide), if_neg (by decide)]
    simp only [e1, e2]
    congr 2
    omega
  · simp only [List.cons_append, List.nil_append, unescapeCode]
    rw [if_neg h2]

theorem escapeChar_append_inj (c d : Char) (r1 r2 : List Char)
    (h : escapeChar c ++ r1 = escapeChar d ++ r2) : c = d ∧ r1 = r2 := by
  have e := congrArg unescapeCode h
  rw [unescapeCode_escapeChar, unescapeCode_escapeChar] at e
  simp only [Option.some.injEq, Prod.mk.injEq] at e
  exact ⟨char_eq_of_toNat_eq e.1, e.2⟩

theorem escapeChars_append_inj : ∀ (s t : List Char) (r1 r2 : List Char),
    escapeChars s ++ '"' :: r1 = escapeChars t ++ '"' :: r2 → s = t ∧ r1 = r2
  | [], [], r1, r2, h => by
    simp only [escapeChars, List.nil_append, List.cons.injEq, true_and] at h
    exact ⟨rfl, h⟩
  | [], d :: t, r1, r2, h => by
    obtain ⟨x, y, hx, hne⟩ := escapeChar_head d
    simp only [escapeChars, List.nil_append, hx, List.cons_append, List.cons.injEq] at h
    exact absurd h.1.symm hne
  | c :: s, [], r1, r2, h => by
    obtain ⟨x, y, hx, hne⟩ := escapeChar_head c
    simp only [escapeChars, List.nil_append, hx, List.cons_append, List.cons.injEq] at h
    exact absurd h.1 hne
  | c :: s, d :: t, r1, r2, h => by
    simp only [escapeChars, List.append_assoc] at h
    obtain ⟨hcd, hrest⟩ := escapeChar_append_inj c d _ _ h
    obtain ⟨hst, hr⟩ := escapeChars_append_inj s t r1 r2 hrest
    exact ⟨by rw [hcd, hst], hr⟩

theorem quoteJSONString_append_inj (k1 k2 : String) (r1 r2 : List Char)
    (h : quoteJSONString k1 ++ r1 = quoteJSONString k2 ++ r2) : k1 = k2 ∧ r1 = r2 := by
  simp only [quoteJSONString, List.cons_append, List.append_assoc, List.nil_append,
    List.cons.injEq, true_and] at h
  obtain ⟨hs, hr⟩ := escapeChars_append_inj _ _ _ _ h
  exact ⟨String.ext hs, hr⟩

theorem digitsValue_append (l : List Char) (c : Char) :
    digitsValue (l ++ [c]) = 10 * digitsValue l + (c.toNat - 48) := by
  simp [digitsValue, List.foldl_append]

theorem toDigitsCore_spec : ∀ (fuel n : Nat), n < fuel →
    ∃ l : List Char, (∀ ds, Nat.toDigitsCore 10 fuel n ds = l ++ ds) ∧ l ≠ [] ∧
      (∀ c ∈ l, c.isDigit = true) ∧ digitsValue l = n
  | 0, n, h => absurd h (Nat.not_lt_zero n)
  | fuel + 1, n, h => by
    have hd := digitChar_value (n % 10) (Nat.mod_lt n (by decide))
    by_cases h0 : n / 10 = 0
    · refine ⟨[Nat.digitChar (n % 10)], ?_, by simp, ?_, ?_⟩
      · intro ds
        simp [Nat.toDigitsCore, h0]
      · intro c hc
        simp only [List.mem_singleton] at hc
        rw [hc]; exact hd.2
      · have : digitsValue [Nat.digitChar (n % 10)] = (Nat.digitChar (n % 10)).toNat - 48 := by
          simp [digitsValue]
        rw [this, hd.1]
        omega
    · obtain ⟨l, hl, _, hdig, hval⟩ := toDigitsCore_spec fuel (n / 10) (by omega)
      refine ⟨l ++ [Nat.digitChar (n % 10)], ?_, by simp, ?_, ?_⟩
      · intro ds
        simp [Nat.toDigitsCore, h0, hl]
      · intro c hc
        rcases List.mem_append.1 hc with hc | hc
        · exact hdig c hc
        · simp only [List.mem_singleton] at hc
          rw [hc]; exact hd.2
      · rw [digitsValue_append, hval, hd.1]
        omega

theorem toDigits_spec (n : Nat) :
    Nat.toDigits 10 n ≠ [] ∧ (∀ c ∈ Nat.toDigits 10 n, c.isDigit = true) ∧
      digitsValue (Nat.toDigits 10 n) = n := by
  obtain ⟨l, hl, hne, hdig, hval⟩ := toDigitsCore_spec (n + 1) n (Nat.lt_succ_self n)
  have : Nat.toDigits 10 n = l := by
    simp [Nat.toDigits, hl]
  rw [this]
  exact ⟨hne, hdig, hval⟩

theorem digits_append_inj : ∀ (l1 l2 r1 r2 : List Char),
    (∀ c ∈ l1, c.isDigit = true) → (∀ c ∈ l2, c.isDigit = true) →
    Terminated r1 → Terminated r2 → l1 ++ r1 = l2 ++ r2 → l1 = l2 ∧ r1 = r2
  | [], [], r1, r2, _, _, _, _, h => ⟨rfl, by simpa using h⟩
  | [], d :: l2, r1, r2, _, h2, t1, _, h => by
    simp only [List.nil_append, List.cons_append] at h
    have := t1 d (by simp [h])
    rw [h2 d (by simp)] at this
    exact absurd this (by decide)
  | c :: l1, [], r1, r2, h1, _, _, t2, h => by
    simp only [List.nil_append, List.cons_append] at h
    have := t2 c (by simp [← h])
    rw [h1 c (by simp)] at this
    exact absurd this (by decide)
  | c :: l1, d :: l2, r1, r2, h1, h2, t1, t2, h => by
    simp only [List.cons_append, List.cons.injEq] at h
    obtain ⟨e1, e2⟩ := digits_append_inj l1 l2 r1 r2
      (fun x hx => h1 x (List.mem_cons_of_mem _ hx))
      (fun x hx => h2 x (List.mem_cons_of_mem _ hx)) t1 t2 h.2
    exact ⟨by rw [h.1, e1], e2⟩

theorem toDigits_append_inj (n m : Nat) (r1 r2 : List Char)
    (t1 : Terminated r1) (t2 : Terminated r2)
    (h : Nat.toDigits 10 n ++ r1 = Nat.toDigits 10 m ++ r2) : n = m ∧ r1 = r2 := by
  obtain ⟨_, hn, vn⟩ := toDigits_spec n
  obtain ⟨_, hm, vm⟩ := toDigits_spec m
  obtain ⟨e, er⟩ := digits_append_inj _ _ _ _ hn hm t1 t2 h
  refine ⟨?_, er⟩
  rw [← vn, ← vm, e]

theorem toDigits_head (n : Nat) :
    ∃ c t, Nat.toDigits 10 n = c :: t ∧ c.isDigit = true := by
  obtain ⟨hne, hdig, _⟩ := toDigits_spec n
  cases hl : Nat.toDigits 10 n with
  | nil => exact absurd hl hne
  | cons c t => exact ⟨c, t, rfl, hdig c (by simp [hl])⟩

theorem numberToChars_head (n : Int) :
    ∃ c t, numberToChars n = c :: t ∧ (c.isDigit = true ∨ c = '-') := by
  cases n with
  | ofNat m =>
    obtain ⟨c, t, h, hc⟩ := toDigits_head m
    exact ⟨c, t, h, Or.inl hc⟩
  | negSucc m => exact ⟨'-', _, rfl, Or.inr rfl⟩

theorem numberToChars_append_inj (n m : Int) (r1 r2 : List Char)
    (t1 : Terminated r1) (t2 : Terminated r2)
    (h : numberToChars n ++ r1 = numberToChars m ++ r2) : n = m ∧ r1 = r2 := by
  cases n with
  | ofNat a =>
    cases m with
    | ofNat b =>
      obtain ⟨e, er⟩ := toDigits_append_inj a b r1 r2 t1 t2 h
      exact ⟨by rw [e], er⟩
    | negSucc b =>
      obtain ⟨c, t, hc, hd⟩ := toDigits_head a
      simp only [numberToChars, hc, List.cons_append, List.cons.injEq] at h
      rw [h.1] at hd
      exact absurd hd (by decide)
  | negSucc a =>
    cases m with
    | ofNat b =>
      obtain ⟨c, t, hc, hd⟩ := toDigits_head b
      simp only [numberToChars, hc, List.cons_append, List.cons.injEq] at h
      rw [← h.1] at hd
      exact absurd hd (by decide)
    | negSucc b =>
      simp only [numberToChars, List.cons_append, List.cons.injEq, true_and] at h
      obtain ⟨e, er⟩ := toDigits_append_inj (a + 1) (b + 1) r1 r2 t1 t2 h
      exact ⟨by rw [Nat.add_right_cancel e], er⟩

theorem terminated_nil : Terminated [] := by
  intro c hc
  simp at hc

theorem terminated_cons {c : Char} (r : List Char) (h : c.isDigit = false) :
    Terminated (c :: r) := by
  intro d hd
  simp only [List.head?_cons, Option.mem_def, Option.some.injEq] at hd
  rw [← hd]; exact h

theorem terminated_encItems (xs : List JSValue) (r : List Char) :
    Terminated (JSValue.encItems xs ++ r) := by
  cases xs with
  | nil => exact terminated_cons _ (by decide)
  | cons x xs => exact terminated_cons _ (by decide)

theorem terminated_encProps (ps : List (String × JSValue)) (r : List Char) :
    Terminated (JSValue.encProps ps ++ r) := by
  cases ps with
  | nil => exact terminated_cons _ (by decide)
  | cons p ps =>
    obtain ⟨k, v⟩ := p
    exact terminated_cons _ (by decide)

theorem headClass_digit {c : Char} (h : c.isDigit = true ∨ c = '-') : headClass c = 3 := by
  unfold headClass
  have h1 : c ≠ 'n' := by
    rintro rfl
    revert h; decide
  have h2 : c ≠ 't' := by
    rintro rfl
    revert h; decide
  have h3 : c ≠ 'f' := by
    rintro rfl
    revert h; decide
  rw [if_neg h1, if_neg h2, if_neg h3, if_pos h]

/-- The first character of an encoding tells the kind of value. -/
theorem enc_head (a : JSValue) : ∃ c t, a.enc = c :: t ∧ headClass c = a.cls := by
  cases a with
  | null => exact ⟨_, _, rfl, rfl⟩
  | bool b => cases b <;> exact ⟨_, _, rfl, rfl⟩
  | num n =>
    obtain ⟨c, t, h, hc⟩ := numberToChars_head n
    exact ⟨c, t, by simp [JSValue.enc, h], headClass_digit hc⟩
  | str s => exact ⟨_, _, rfl, rfl⟩
  | arr xs =>
    cases xs with
    | nil => exact ⟨_, _, rfl, rfl⟩
    | cons x xs => exact ⟨'[', x.enc ++ JSValue.encItems xs, by simp [JSValue.enc], rfl⟩
  | obj ps =>
    cases ps with
    | nil => exact ⟨_, _, rfl, rfl⟩
    | cons p ps =>
      obtain ⟨k, v⟩ := p
      exact ⟨'{', quoteJSONString k ++ ':' :: (v.enc ++ JSValue.encProps ps),
        by simp [JSValue.enc], rfl⟩

theorem cls_lt (a : JSValue) : a.cls < 7 := by
  cases a with
  | bool b => cases b <;> simp [JSValue.cls]
  | _ => simp [JSValue.cls]

theorem enc_ne_close (a : JSValue) (t : List Char) : a.enc ≠ ']' :: t := by
  intro h
  obtain ⟨c, u, hc, hk⟩ := enc_head a
  rw [hc] at h
  simp only [List.cons.injEq] at h
  have h7 : headClass c = 7 := by rw [h.1]; decide
  have := cls_lt a
  omega

/-- Two encodings that agree up to their continuations are of the same kind. -/
theorem enc_cls_eq {a b : JSValue} {r1 r2 : List Char} (h : a.enc ++ r1 = b.enc ++ r2) :
    a.cls = b.cls := by
  obtain ⟨c, t, hc, ka⟩ := enc_head a
  obtain ⟨d, u, hd, kb⟩ := enc_head b
  rw [hc, hd] at h
  simp only [List.cons_append, List.cons.injEq] at h
  rw [← ka, ← kb, h.1]

mutual
/-- Unique decoding: an encoding followed by a continuation that does not start
with a digit determines the value and the continuation. -/
theorem enc_append_inj : ∀ (a b : JSValue) (r1 r2 : List Char),
    Terminated r1 → Terminated r2 → a.enc ++ r1 = b.enc ++ r2 → a = b ∧ r1 = r2
  | JSValue.null, b, r1, r2, _, _, h => by
    cases b with
    | null => simpa [JSValue.enc] using h
    | bool c => cases c <;> exact absurd (enc_cls_eq h) (by simp [JSValue.cls])
    | _ => exact absurd (enc_cls_eq h) (by simp [JSValue.cls])
  | JSValue.bool true, b, r1, r2, _, _, h => by
    cases b with
    | bool c =>
      cases c with
      | true => simpa [JSValue.enc] using h
      | false => exact absurd (enc_cls_eq h) (by simp [JSValue.cls])
    | _ => exact absurd (enc_cls_eq h) (by simp [JSValue.cls])
  | JSValue.bool false, b, r1, r2, _, _, h => by
    cases b with
    | bool c =>
      cases c with
      | false => simpa [JSValue.enc] using h
      | true => exact absurd (enc_cls_eq h) (by simp [JSValue.cls])
    | _ => exact absurd (enc_cls_eq h) (by simp [JSValue.cls])
  | JSValue.num n, b, r1, r2, t1, t2, h => by
    cases b with
    | num m =>
      simp only [JSValue.enc] at h
      obtain ⟨e, er⟩ := numberToChars_append_inj n m r1 r2 t1 t2 h
      exact ⟨by rw [e], er⟩
    | bool c => cases c <;> exact absurd (enc_cls_eq h) (by simp [JSValue.cls])
    | _ => exact absurd (enc_cls_eq h) (by simp [JSValue.cls])
  | JSValue.str s, b, r1, r2, _, _, h => by
    cases b with
    | str u =>
      simp only [JSValue.enc] at h
      obtain ⟨e, er⟩ := quoteJSONString_append_inj s u r1 r2 h
      exact ⟨by rw [e], er⟩
    | bool c => cases c <;> exact absurd (enc_cls_eq h) (by simp [JSValue.cls])
    | _ => exact absurd (enc_cls_eq h) (by simp [JSValue.cls])
  | JSValue.arr [], b, r1, r2, _, _, h => by
    cases b with
    | arr ys =>
      cases ys with
      | nil => simpa [JSValue.enc] using h
      | cons y ys =>
        simp only [JSValue.enc, List.cons_append, List.cons.injEq, true_and,
          List.nil_append] at h
        obtain ⟨c, t, hc, hk⟩ := enc_head y
        rw [hc] at h
        simp only [List.cons_append, List.cons.injEq] at h
        exact absurd (hc.trans (by rw [← h.1])) (enc_ne_close y t)
    | bool c => cases c <;> exact absurd (enc_cls_eq h) (by simp [JSValue.cls])
    | _ => exact absurd (enc_cls_eq h) (by simp [JSValue.cls])
  | JSValue.arr (x :: xs), b, r1, r2, t1, t2, h => by
    cases b with
    | arr ys =>
      cases ys with
      | nil =>
        simp only [JSValue.enc, List.cons_append, List.cons.injEq, true_and,
          List.nil_append] at h
        obtain ⟨c, t, hc, hk⟩ := enc_head x
        rw [hc] at h
        simp only [List.cons_append, List.cons.injEq] at h
        exact absurd (hc.trans (by rw [h.1])) (enc_ne_close x t)
      | cons y ys =>
        simp only [JSValue.enc, List.cons_append, List.cons.injEq, true_and,
          List.append_assoc] at h
        obtain ⟨e1, h1⟩ := enc_append_inj x y _ _ (terminated_encItems xs r1)
          (terminated_encItems ys r2) h
        obtain ⟨e2, h2⟩ := encItems_append_inj xs ys r1 r2 t1 t2 h1
        exact ⟨by rw [e1, e2], h2⟩
    | bool c => cases c <;> exact absurd (enc_cls_eq h) (by simp [JSValue.cls])
    | _ => exact absurd (enc_cls_eq h) (by simp [JSValue.cls])
  | JSValue.obj [], b, r1, r2, _, _, h => by
    cases b with
    | obj qs =>
      cases qs with
      | nil => simpa [JSValue.enc] using h
      | cons q qs =>
        obtain ⟨k, v⟩ := q
        simp [JSValue.enc, quoteJSONString] at h
    | bool c => cases c <;> exact absurd (enc_cls_eq h) (by simp [JSValue.cls])
    | _ => exact absurd (enc_cls_eq h) (by simp [JSValue.cls])
  | JSValue.obj ((k, v) :: ps), b, r1, r2, t1, t2, h => by
    cases b with
    | obj qs =>
      cases qs with
      | nil => simp [JSValue.enc, quoteJSONString] at h
      | cons q qs =>
        obtain ⟨k2, v2⟩ := q
        simp only [JSValue.enc, List.cons_append, List.cons.injEq, true_and,
          List.append_assoc] at h
        obtain ⟨ek, hk⟩ := quoteJSONString_append_inj k k2 _ _ h
        simp only [List.cons.injEq, true_and] at hk
        obtain ⟨e1, h1⟩ := enc_append_inj v v2 _ _ (terminated_encProps ps r1)
          (terminated_encProps qs r2) hk
        obtain ⟨e2, h2⟩ := encProps_append_inj ps qs r1 r2 t1 t2 h1
        exact ⟨by rw [ek, e1, e2], h2⟩
    | bool c => cases c <;> exact absurd (enc_cls_eq h) (by simp [JSValue.cls])
    | _ => exact absurd (enc_cls_eq h) (by simp [JSValue.cls])
/-- Unique decoding of the rest of an array. -/
theorem encItems_append_inj : ∀ (xs ys : List JSValue) (r1 r2 : List Char),
    Terminated r1 → Terminated r2 →
    JSValue.encItems xs ++ r1 = JSValue.encItems ys ++ r2 → xs = ys ∧ r1 = r2
  | [], ys, r1, r2, _, _, h => by
    cases ys with
    | nil => simpa [JSValue.encItems] using h
    | cons y ys => simp [JSValue.encItems] at h
  | x :: xs, ys, r1, r2, t1, t2, h => by
    cases ys with
    | nil => simp [JSValue.encItems] at h
    | cons y ys =>
      simp only [JSValue.encItems, List.cons_append, List.cons.injEq, true_and,
        List.append_assoc] at h
      obtain ⟨e1, h1⟩ := enc_append_inj x y _ _ (terminated_encItems xs r1)
        (terminated_encItems ys r2) h
      obtain ⟨e2, h2⟩ := encItems_append_inj xs ys r1 r2 t1 t2 h1
      exact ⟨by rw [e1, e2], h2⟩
/-- Unique decoding of the rest of an object. -/
theorem encProps_append_inj : ∀ (ps qs : List (String × JSValue)) (r1 r2 : List Char),
    Terminated r1 → Terminated r2 →
    JSValue.encProps ps ++ r1 = JSValue.encProps qs ++ r2 → ps = qs ∧ r1 = r2
  | [], qs, r1, r2, _, _, h => by
    cases qs with
    | nil => simpa [JSValue.encProps] using h
    | cons q qs =>
      obtain ⟨k, v⟩ := q
      simp [JSValue.encProps] at h
  | (k, v) :: ps, qs, r1, r2, t1, t2, h => by
    cases qs with
    | nil => simp [JSValue.encProps] at h
    | cons q qs =>
      obtain ⟨k2, v2⟩ := q
      simp only [JSValue.encProps, List.cons_append, List.cons.injEq, true_and,
        List.append_assoc] at h
      obtain ⟨ek, hk⟩ := quoteJSONString_append_inj k k2 _ _ h
      simp only [List.cons.injEq, true_and] at hk
      obtain ⟨e1, h1⟩ := enc_append_inj v v2 _ _ (terminated_encProps ps r1)
        (terminated_encProps qs r2) hk
      obtain ⟨e2, h2⟩ := encProps_append_inj ps qs r1 r2 t1 t2 h1
      exact ⟨by rw [ek, e1, e2], h2⟩
end

theorem enc_injective {a b : JSValue} (h : a.enc = b.enc) : a = b := by
  have h2 : a.enc ++ [] = b.enc ++ [] := by rw [h]
  exact (enc_append_inj a b [] [] terminated_nil terminated_nil h2).1

/-- The encoding `JSON.stringify` is injective on JSON values. -/
theorem stringify_injective {a b : JSValue} (h : stringify a = stringify b) : a = b := by
  unfold stringify at h
  exact enc_injective (congrArg String.data h)

theorem differs_eq_false_iff (a b : JSValue) : differs a b = false ↔ a = b := by
  unfold differs
  constructor
  · intro h
    apply stringify_injective
    simpa using h
  · intro h
    simp [h]

/-! ## The run -/

theorem compareOne_of_ok {page : Document} {c : Monitor} {v : JSValue}
    (h : getElementDetails page c = Except.ok v) :
    compareOne page c =
      Except.ok (if differs v c.Value = true then some (mkReport c v) else none) := by
  unfold compareOne
  rw [h]
  by_cases hd : differs v c.Value = true
  · simp [hd]
  · simp [hd]

/-- When every extraction succeeds, `Promise.all` resolves with one result per
monitor, in input order. -/
theorem promiseAll_ok (page : Document) : ∀ (cs : List Monitor),
    (∀ c ∈ cs, ∃ v, getElementDetails page c = Except.ok v) →
    ∃ results, promiseAll page cs = Except.ok results ∧
      List.Forall₂ (fun c r => ∃ v, getElementDetails page c = Except.ok v ∧
        r = if differs v c.Value = true then some (mkReport c v) else none) cs results
  | [], _ => ⟨[], rfl, List.Forall₂.nil⟩
  | c :: cs, h => by
    obtain ⟨v, hv⟩ := h c (List.mem_cons_self c cs)
    obtain ⟨rs, hrs, hall⟩ := promiseAll_ok page cs (fun d hd => h d (List.mem_cons_of_mem c hd))
    refine ⟨_ :: rs, ?_, List.Forall₂.cons ⟨v, hv, rfl⟩ hall⟩
    simp only [promiseAll, compareOne_of_ok hv, hrs]

/-- A run whose browser launches, whose page loads and whose extractions all
succeed returns the reports of the changed monitors and closes the browser. -/
theorem compareWebContent_ok (puppeteer : Puppeteer) (url : String) (page : Document)
    (comparisons : List Monitor)
    (hl : puppeteer.launch = true) (hn : puppeteer.newPage = true)
    (hg : puppeteer.goto url = some page)
    (hx : ∀ c ∈ comparisons, ∃ v, getElementDetails page c = Except.ok v) :
    ∃ results, compareWebContent puppeteer url comparisons =
        (Except.ok (results.filterMap id), BrowserState.closed) ∧
      List.Forall₂ (fun c r => ∃ v, getElementDetails page c = Except.ok v ∧
        r = if differs v c.Value = true then some (mkReport c v) else none)
        comparisons results := by
  obtain ⟨results, hres, hall⟩ := promiseAll_ok page comparisons hx
  refine ⟨results, ?_, hall⟩
  have hnav : navigateToPage puppeteer url = (Except.ok page, BrowserState.running) := by
    simp [navigateToPage, hl, hn, hg]
  simp only [compareWebContent, hnav, hres]

theorem mem_filterMap_of_forall₂ {page : Document} :
    ∀ {cs : List Monitor} {results : List (Option Report)},
    List.Forall₂ (fun c r => ∃ v, getElementDetails page c = Except.ok v ∧
        r = if differs v c.Value = true then some (mkReport c v) else none) cs results →
    ∀ r, r ∈ results.filterMap id ↔
      ∃ c ∈ cs, ∃ v, getElementDetails page c = Except.ok v ∧ differs v c.Value = true ∧
        r = mkReport c v := by
  intro cs results h
  induction h with
  | nil => intro r; simp
  | @cons c x cs rs hx _ ih =>
    intro r
    obtain ⟨v, hv, hxe⟩ := hx
    by_cases hd : differs v c.Value = true
    · rw [if_pos hd] at hxe
      subst hxe
      simp only [List.filterMap_cons, id_eq, List.mem_cons, ih r]
      constructor
      · rintro (h | ⟨d, hd1, w, hw, hdw, hr⟩)
        · exact ⟨c, Or.inl rfl, v, hv, hd, h⟩
        · exact ⟨d, Or.inr hd1, w, hw, hdw, hr⟩
      · rintro ⟨d, hd1 | hd1, w, hw, hdw, hr⟩
        · subst hd1
          rw [hv] at hw
          cases hw
          exact Or.inl hr
        · exact Or.inr ⟨d, hd1, w, hw, hdw, hr⟩
    · rw [if_neg hd] at hxe
      subst hxe
      simp only [List.filterMap_cons, id_eq, List.mem_cons, ih r]
      constructor
      · rintro ⟨d, hd1, w, hw, hdw, hr⟩
        exact ⟨d, Or.inr hd1, w, hw, hdw, hr⟩
      · rintro ⟨d, hd1 | hd1, w, hw, hdw, hr⟩
        · subst hd1
          rw [hv] at hw
          cases hw
          exact absurd hdw hd
        · exact ⟨d, hd1, w, hw, hdw, hr⟩

/-- The reports of a successful run: exactly the `mkReport c v` of the monitors
`c` of the list whose extracted value `v` differs from the stored one. -/
theorem compareWebContent_reports (puppeteer : Puppeteer) (url : String) (page : Document)
    (comparisons : List Monitor)
    (hl : puppeteer.launch = true) (hn : puppeteer.newPage = true)
    (hg : puppeteer.goto url = some page)
    (hx : ∀ c ∈ comparisons, ∃ v, getElementDetails page c = Except.ok v) :
    ∃ reports, compareWebContent puppeteer url comparisons =
        (Except.ok reports, BrowserState.closed) ∧
      ∀ r, r ∈ reports ↔
        ∃ c ∈ comparisons, ∃ v, getElementDetails page c = Except.ok v ∧
          differs v c.Value = true ∧ r = mkReport c v := by
  obtain ⟨results, hrun, hall⟩ := compareWebContent_ok puppeteer url page comparisons hl hn hg hx
  exact ⟨_, hrun, mem_filterMap_of_forall₂ hall⟩

theorem differs_eq_true_iff (a b : JSValue) : differs a b = true ↔ stringify a ≠ stringify b := by
  simp [differs]

theorem mkReport_fields_inj {c d : Monitor} {v : JSValue}
    (h1 : (mkReport d v).MonitorID = c.MonitorID) (h2 : (mkReport d v).Selector = c.Selector)
    (h3 : (mkReport d v).Type_ = c.Type_) (h4 : (mkReport d v).Attributes = c.Attributes)
    (h5 : (mkReport d v).ExpectedValue = c.Value) : d = c := by
  cases c
  cases d
  simp only [mkReport] at h1 h2 h3 h4 h5
  simp [h1, h2, h3, h4, h5]

theorem forall₂_filter_changed {page : Document} :
    ∀ {cs : List Monitor} {results : List (Option Report)},
    List.Forall₂ (fun c r => ∃ v, getElementDetails page c = Except.ok v ∧
        r = if differs v c.Value = true then some (mkReport c v) else none) cs results →
    List.Forall₂ (fun c r => ∃ v, getElementDetails page c = Except.ok v ∧
        stringify v ≠ stringify c.Value ∧ r = mkReport c v)
      (cs.filter (valueChanged page))
      (results.filterMap id) := by
  intro cs results h
  induction h with
  | nil => exact List.Forall₂.nil
  | @cons c x cs rs hx _ ih =>
    obtain ⟨v, hv, hxe⟩ := hx
    by_cases hd : differs v c.Value = true
    · rw [if_pos hd] at hxe
      subst hxe
      have hne := (differs_eq_true_iff _ _).1 hd
      have hf : valueChanged page c = true := by
        unfold valueChanged
        rw [hv]; simpa using hne
      rw [List.filter_cons_of_pos hf]
      simp only [List.filterMap_cons, id_eq]
      exact List.Forall₂.cons ⟨v, hv, hne, rfl⟩ ih
    · rw [if_neg hd] at hxe
      subst hxe
      have hne : ¬ stringify v ≠ stringify c.Value := fun hn =>
        hd ((differs_eq_true_iff _ _).2 hn)
      have hf : ¬ valueChanged page c = true := by
        unfold valueChanged
        rw [hv]; simpa using hne
      rw [List.filter_cons_of_neg hf]
      simp only [List.filterMap_cons, id_eq]
      exact ih

/-! ## Extraction lemmas -/

theorem differs_of_ne {a b : JSValue} (h : a ≠ b) : differs a b = true := by
  cases hd : differs a b with
  | true => rfl
  | false => exact absurd ((differs_eq_false_iff _ _).1 hd) h

theorem getElementDetails_of_match {page : Document} {c : Monitor} {e : Element}
    (hm : page.querySelector c.Selector = Except.ok (some e)) :
    getElementDetails page c = Except.ok (evaluateElement e c.Type_ c.Attributes) := by
  simp only [getElementDetails, pageFunction, hm]

theorem evaluateElement_text (e : Element) (attrs : List String) :
    evaluateElement e "text" attrs = JSValue.null ∨
      ∃ s, evaluateElement e "text" attrs = JSValue.str s := by
  cases ht : e.textContent with
  | none => exact Or.inl (by simp [evaluateElement, ht])
  | some s =>
    by_cases hs : s = ""
    · exact Or.inl (by simp [evaluateElement, ht, hs])
    · exact Or.inr ⟨s, by simp [evaluateElement, ht, hs]⟩

theorem evaluateElement_attribute (e : Element) (attrs : List String) :
    evaluateElement e "attribute" attrs =
      JSValue.obj (attrs.foldl (fun attributesDetails attr =>
        attributesDetails.assign attr (e.getAttribute attr)) JSObject.empty).props := by
  simp [evaluateElement, JSObject.toValue]


/-! ## The attribute mapping -/

theorem insertIndex_perm (k : String) (i : Nat) (v : JSValue) :
    ∀ ps : List (String × JSValue), (insertIndex k i v ps).Perm ((k, v) :: ps)
  | [] => List.Perm.refl _
  | p :: ps => by
    unfold insertIndex
    cases arrayIndex? p.1 with
    | none => exact List.Perm.refl _
    | some j =>
      by_cases hj : j < i
      · simp only [hj, if_true]
        exact ((insertIndex_perm k i v ps).cons p).trans (List.Perm.swap _ _ _)
      · simp only [hj, if_false]
        exact List.Perm.refl _

theorem any_key_iff (ps : List (String × JSValue)) (k : String) :
    ps.any (fun p => p.1 == k) = true ↔ k ∈ ps.map Prod.fst := by
  simp only [List.any_eq_true, beq_iff_eq, List.mem_map]

/-- Writing an existing key keeps the keys and their order. -/
theorem defineOwn_keys_of_mem {ps : List (String × JSValue)} {k : String} (v : JSValue)
    (h : k ∈ ps.map Prod.fst) : (defineOwn ps k v).map Prod.fst = ps.map Prod.fst := by
  unfold defineOwn
  rw [if_pos ((any_key_iff ps k).2 h), List.map_map]
  apply List.map_congr_left
  intro p _
  show (if (p.1 == k) = true then (p.1, v) else p).1 = p.1
  by_cases hp : (p.1 == k) = true
  · rw [if_pos hp]
  · rw [if_neg hp]

/-- Writing a new key adds it to the keys. -/
theorem defineOwn_keys_of_not_mem {ps : List (String × JSValue)} {k : String} (v : JSValue)
    (h : k ∉ ps.map Prod.fst) :
    ((defineOwn ps k v).map Prod.fst).Perm (k :: ps.map Prod.fst) := by
  unfold defineOwn
  rw [if_neg (fun hc => h ((any_key_iff ps k).1 hc))]
  cases arrayIndex? k with
  | none =>
    simp only [List.map_append, List.map_cons, List.map_nil]
    exact List.perm_append_comm
  | some i => exact (insertIndex_perm k i v ps).map Prod.fst

theorem mem_defineOwn {ps : List (String × JSValue)} {k : String} {v : JSValue}
    {p : String × JSValue} (h : p ∈ defineOwn ps k v) : p = (k, v) ∨ p ∈ ps := by
  unfold defineOwn at h
  by_cases ha : ps.any (fun p => p.1 == k) = true
  · rw [if_pos ha] at h
    obtain ⟨q, hq, hqp⟩ := List.mem_map.1 h
    by_cases hk : (q.1 == k) = true
    · rw [if_pos hk] at hqp
      left
      rw [← hqp, beq_iff_eq.1 hk]
    · rw [if_neg hk] at hqp
      right
      rw [← hqp]; exact hq
  · rw [if_neg ha] at h
    cases hi : arrayIndex? k with
    | none =>
      rw [hi] at h
      rcases List.mem_append.1 h with h | h
      · exact Or.inr h
      · exact Or.inl (List.mem_singleton.1 h)
    | some i =>
      rw [hi] at h
      rcases List.mem_cons.1 ((insertIndex_perm k i v ps).mem_iff.1 h) with h | h
      · exact Or.inl h
      · exact Or.inr h

theorem assign_props_of_ne {o : JSObject} {k : String} (v : Option String)
    (h : k ≠ "__proto__") :
    (o.assign k v).props = defineOwn o.props k (JSValue.ofNullable v) := by
  unfold JSObject.assign
  rw [if_neg (fun hc => h hc.1)]

/-- Filling an object with the attributes of a list that does not name
`__proto__`: the keys become the old keys and the names of the list, no key
occurs twice, and every new or rewritten value is the attribute read. -/
theorem foldl_assign_spec (e : Element) : ∀ (attrs : List String) (o : JSObject),
    "__proto__" ∉ attrs → (o.props.map Prod.fst).Nodup →
    (∀ p ∈ o.props, p.2 = JSValue.ofNullable (e.getAttribute p.1)) →
    (∀ k, k ∈ ((attrs.foldl (fun attributesDetails attr =>
        attributesDetails.assign attr (e.getAttribute attr)) o).props.map Prod.fst) ↔
      k ∈ o.props.map Prod.fst ∨ k ∈ attrs) ∧
    ((attrs.foldl (fun attributesDetails attr =>
        attributesDetails.assign attr (e.getAttribute attr)) o).props.map Prod.fst).Nodup ∧
    (∀ p ∈ (attrs.foldl (fun attributesDetails attr =>
        attributesDetails.assign attr (e.getAttribute attr)) o).props,
      p.2 = JSValue.ofNullable (e.getAttribute p.1))
  | [], o, _, hnd, hval => ⟨fun k => by simp, hnd, hval⟩
  | a :: attrs, o, hp, hnd, hval => by
    have ha : a ≠ "__proto__" := fun hc => hp (by rw [hc]; exact List.mem_cons_self _ _)
    have hp2 : "__proto__" ∉ attrs := fun hc => hp (List.mem_cons_of_mem _ hc)
    have hprops := assign_props_of_ne (o := o) (e.getAttribute a) ha
    have hval2 : ∀ p ∈ (o.assign a (e.getAttribute a)).props,
        p.2 = JSValue.ofNullable (e.getAttribute p.1) := by
      intro p hpm
      rw [hprops] at hpm
      rcases mem_defineOwn hpm with h | h
      · rw [h]
      · exact hval p h
    have hkeys : ∀ k, k ∈ (o.assign a (e.getAttribute a)).props.map Prod.fst ↔
        k = a ∨ k ∈ o.props.map Prod.fst := by
      intro k
      rw [hprops]
      by_cases hmem : a ∈ o.props.map Prod.fst
      · rw [defineOwn_keys_of_mem _ hmem]
        constructor
        · exact Or.inr
        · rintro (h | h)
          · rw [h]; exact hmem
          · exact h
      · rw [(defineOwn_keys_of_not_mem _ hmem).mem_iff, List.mem_cons]
    have hnd2 : ((o.assign a (e.getAttribute a)).props.map Prod.fst).Nodup := by
      rw [hprops]
      by_cases hmem : a ∈ o.props.map Prod.fst
      · rw [defineOwn_keys_of_mem _ hmem]; exact hnd
      · rw [(defineOwn_keys_of_not_mem _ hmem).nodup_iff]
        exact List.nodup_cons.2 ⟨hmem, hnd⟩
    obtain ⟨h1, h2, h3⟩ := foldl_assign_spec e attrs (o.assign a (e.getAttribute a)) hp2 hnd2 hval2
    refine ⟨?_, h2, h3⟩
    intro k
    rw [List.foldl_cons, h1 k, hkeys k, List.mem_cons]
    constructor
    · rintro ((h | h) | h)
      · exact Or.inr (Or.inl h)
      · exact Or.inl h
      · exact Or.inr (Or.inr h)
    · rintro (h | h | h)
      · exact Or.inl (Or.inr h)
      · exact Or.inl (Or.inl h)
      · exact Or.inr h

/-- The attribute mapping for a list of names that does not contain `__proto__`:
its keys are exactly the requested names, one entry per name, and each key maps
to the attribute's value, or to `null` when the attribute is not set. -/
theorem attribute_map_spec (e : Element) (attrs : List String) (h : "__proto__" ∉ attrs) :
    ∃ ps, evaluateElement e "attribute" attrs = JSValue.obj ps ∧
      (∀ k, k ∈ ps.map Prod.fst ↔ k ∈ attrs) ∧ (ps.map Prod.fst).Nodup ∧
      ∀ p ∈ ps, p.2 = JSValue.ofNullable (e.getAttribute p.1) := by
  obtain ⟨h1, h2, h3⟩ := foldl_assign_spec e attrs JSObject.empty h
    (by simp [JSObject.empty]) (by simp [JSObject.empty])
  refine ⟨_, evaluateElement_attribute e attrs, ?_, h2, h3⟩
  intro k
  rw [h1 k]
  simp [JSObject.empty]

/-- Scenario 3: the attribute list `["src"]` on `img#logo` with `src="/new.png"`
reads `{src: "/new.png"}`, which is reported against the stored
`{src: "/old.png"}`. -/
theorem scenario3_src_reported :
    getElementDetails (Scenario.pageWith "img#logo" Scenario.logoElement)
        Scenario.logoMonitor = Except.ok (JSValue.obj [("src", JSValue.str "/new.png")]) ∧
      compareWebContent (Scenario.browser (Scenario.pageWith "img#logo" Scenario.logoElement))
          "https://example.test/" [Scenario.logoMonitor] =
        (Except.ok [mkReport Scenario.logoMonitor
          (JSValue.obj [("src", JSValue.str "/new.png")])], BrowserState.closed) :=
  ⟨rfl, rfl⟩

/-! ## The claims -/

/-- C1. On a run that loads the page and extracts every monitor, a monitor whose
freshly extracted value has the same `JSON.stringify` encoding as its stored
`Value` has no entry in the returned list (no report carries its `MonitorID`,
`Selector`, `Type`, `Attributes` and `Value`); if that holds of every monitor the
returned list is empty. -/
theorem C1_unchanged_monitor_omitted (puppeteer : Puppeteer) (url : String) (page : Document)
    (comparisons : List Monitor)
    (hl : puppeteer.launch = true) (hn : puppeteer.newPage = true)
    (hg : puppeteer.goto url = some page)
    (hx : ∀ c ∈ comparisons, ∃ v, getElementDetails page c = Except.ok v) :
    ∃ reports, compareWebContent puppeteer url comparisons =
        (Except.ok reports, BrowserState.closed) ∧
      (∀ c ∈ comparisons, ∀ v, getElementDetails page c = Except.ok v →
        stringify v = stringify c.Value →
        ∀ r ∈ reports, ¬ (r.MonitorID = c.MonitorID ∧ r.Selector = c.Selector ∧
          r.Type_ = c.Type_ ∧ r.Attributes = c.Attributes ∧ r.ExpectedValue = c.Value)) ∧
      ((∀ c ∈ comparisons, ∀ v, getElementDetails page c = Except.ok v →
        stringify v = stringify c.Value) → reports = []) := by
  obtain ⟨reports, hrun, hmem⟩ :=
    compareWebContent_reports puppeteer url page comparisons hl hn hg hx
  refine ⟨reports, hrun, ?_, ?_⟩
  · intro c _ v hv hsame r hr hfields
    obtain ⟨d, _, w, hw, hdw, hrd⟩ := (hmem r).1 hr
    subst hrd
    obtain ⟨h1, h2, h3, h4, h5⟩ := hfields
    have hdc : d = c := mkReport_fields_inj h1 h2 h3 h4 h5
    subst hdc
    rw [hv] at hw
    cases hw
    exact (differs_eq_true_iff _ _).1 hdw hsame
  · intro hall
    apply List.eq_nil_iff_forall_not_mem.2
    intro r hr
    obtain ⟨d, hd, w, hw, hdw, _⟩ := (hmem r).1 hr
    exact (differs_eq_true_iff _ _).1 hdw (hall d hd w hw)

/-- C1, scenario 1: the monitor `{MonitorID: 1, Selector: "#title", Type: "text",
Value: "Hello"}` on a page whose `#title` has the text `Hello` gives no report. -/
theorem C1_unchanged_monitor_omitted_witness :
    compareWebContent
        (Scenario.browser (Scenario.pageWith "#title" (Scenario.textElement (some "Hello"))))
        "https://example.test/" [Scenario.titleMonitor] =
      (Except.ok [], BrowserState.closed) := by
  obtain ⟨reports, hrun, _, hall⟩ := C1_unchanged_monitor_omitted
    (Scenario.browser (Scenario.pageWith "#title" (Scenario.textElement (some "Hello"))))
    "https://example.test/"
    (Scenario.pageWith "#title" (Scenario.textElement (some "Hello")))
    [Scenario.titleMonitor] rfl rfl rfl
    (by
      intro c hc
      rw [List.mem_singleton] at hc
      subst hc
      exact ⟨_, rfl⟩)
  rw [hrun, hall (by
    intro c hc v hv
    rw [List.mem_singleton] at hc
    subst hc
    cases hv
    decide)]

/-- C2. On a run that loads the page and extracts every monitor, the returned
reports correspond one to one, in order, to the monitor occurrences whose
extracted value differs from the stored `Value` under `JSON.stringify`
comparison: each such occurrence has exactly one report, whose `CurrentValue` is
the freshly extracted value and whose `ExpectedValue` is the monitor's `Value`. -/
theorem C2_changed_monitor_reported_once (puppeteer : Puppeteer) (url : String)
    (page : Document) (comparisons : List Monitor)
    (hl : puppeteer.launch = true) (hn : puppeteer.newPage = true)
    (hg : puppeteer.goto url = some page)
    (hx : ∀ c ∈ comparisons, ∃ v, getElementDetails page c = Except.ok v) :
    ∃ reports, compareWebContent puppeteer url comparisons =
        (Except.ok reports, BrowserState.closed) ∧
      List.Forall₂ (fun c r => ∃ v, getElementDetails page c = Except.ok v ∧
          stringify v ≠ stringify c.Value ∧
          r.CurrentValue = v ∧ r.ExpectedValue = c.Value ∧ r.MonitorID = c.MonitorID ∧
          r.Selector = c.Selector ∧ r.Type_ = c.Type_ ∧ r.Attributes = c.Attributes)
        (comparisons.filter (valueChanged page)) reports := by
  obtain ⟨results, hrun, hall⟩ :=
    compareWebContent_ok puppeteer url page comparisons hl hn hg hx
  refine ⟨_, hrun, ?_⟩
  refine List.Forall₂.imp ?_ (forall₂_filter_changed hall)
  rintro c r ⟨v, hv, hne, hr⟩
  subst hr
  exact ⟨v, hv, hne, rfl, rfl, rfl, rfl, rfl, rfl⟩

/-- C2, scenario 2: the monitor expecting `Hello` on a page whose `#title` has the
text `Hello World` gives one report, with `ExpectedValue` `Hello` and
`CurrentValue` `Hello World`. -/
theorem C2_changed_monitor_reported_once_witness :
    ∃ r, compareWebContent
        (Scenario.browser (Scenario.pageWith "#title" (Scenario.textElement (some "Hello World"))))
        "https://example.test/" [Scenario.titleMonitor] =
        (Except.ok [r], BrowserState.closed) ∧
      r.ExpectedValue = JSValue.str "Hello" ∧ r.CurrentValue = JSValue.str "Hello World" := by
  obtain ⟨reports, hrun, hall⟩ := C2_changed_monitor_reported_once
    (Scenario.browser (Scenario.pageWith "#title" (Scenario.textElement (some "Hello World"))))
    "https://example.test/"
    (Scenario.pageWith "#title" (Scenario.textElement (some "Hello World")))
    [Scenario.titleMonitor] rfl rfl rfl
    (by
      intro c hc
      rw [List.mem_singleton] at hc
      subst hc
      exact ⟨_, rfl⟩)
  have hf : [Scenario.titleMonitor].filter (valueChanged
      (Scenario.pageWith "#title" (Scenario.textElement (some "Hello World")))) =
      [Scenario.titleMonitor] := by
    rw [List.filter_cons_of_pos (by decide)]
    rfl
  rw [hf] at hall
  cases hall with
  | cons h1 h2 =>
    cases h2
    obtain ⟨v, hv, _, hcur, hexp, _⟩ := h1
    cases hv
    exact ⟨_, hrun, hexp, hcur⟩

/-- C3, counterexample: the mappings `{a:1,b:2}` and `{b:2,a:1}` hold the same
key/value pairs, and the comparison of `compareWebContent` reports them as
different. -/
theorem C3_key_order_counterexample :
    List.Perm [("a", JSValue.num 1), ("b", JSValue.num 2)]
        [("b", JSValue.num 2), ("a", JSValue.num 1)] ∧
      differs (JSValue.obj [("a", JSValue.num 1), ("b", JSValue.num 2)])
        (JSValue.obj [("b", JSValue.num 2), ("a", JSValue.num 1)]) = true :=
  ⟨List.Perm.swap _ _ _, by decide⟩

/-- C3, as amended: the comparison is sensitive to key order.  Two mappings
compare equal exactly when they list the same key/value pairs in the same
order. -/
theorem C3_key_order_sensitive (ps qs : List (String × JSValue)) :
    differs (JSValue.obj ps) (JSValue.obj qs) = false ↔ ps = qs := by
  rw [differs_eq_false_iff]
  constructor
  · intro h
    exact JSValue.obj.inj h
  · intro h
    rw [h]

/-- C4. When the selector of a monitor matches no element, `getElementDetails`
returns the empty mapping `{}`, whatever the monitor's `Type` and `Attributes`;
`{}` compares equal to a stored `{}` and unequal to every other stored value; so
on a run that loads the page and extracts every monitor, the monitor has a
report in the returned list exactly when its stored `Value` is not `{}`. -/
theorem C4_no_match_yields_empty (puppeteer : Puppeteer) (url : String) (page : Document)
    (comparisons : List Monitor) (c : Monitor)
    (hl : puppeteer.launch = true) (hn : puppeteer.newPage = true)
    (hg : puppeteer.goto url = some page)
    (hx : ∀ d ∈ comparisons, ∃ v, getElementDetails page d = Except.ok v)
    (hc : c ∈ comparisons) (hmiss : page.querySelector c.Selector = Except.ok none) :
    getElementDetails page c = Except.ok (JSValue.obj []) ∧
      differs (JSValue.obj []) (JSValue.obj []) = false ∧
      (∀ v, v ≠ JSValue.obj [] → differs (JSValue.obj []) v = true) ∧
      ∃ reports, compareWebContent puppeteer url comparisons =
          (Except.ok reports, BrowserState.closed) ∧
        ((∀ r ∈ reports, ¬ (r.MonitorID = c.MonitorID ∧ r.Selector = c.Selector ∧
            r.Type_ = c.Type_ ∧ r.Attributes = c.Attributes ∧ r.ExpectedValue = c.Value)) ↔
          c.Value = JSValue.obj []) := by
  have hget : getElementDetails page c = Except.ok (JSValue.obj []) := by
    simp only [getElementDetails, pageFunction, hmiss]
  have hne : ∀ v, v ≠ JSValue.obj [] → differs (JSValue.obj []) v = true := by
    intro v hv
    cases hd : differs (JSValue.obj []) v with
    | true => rfl
    | false => exact absurd ((differs_eq_false_iff _ _).1 hd).symm hv
  refine ⟨hget, (differs_eq_false_iff _ _).2 rfl, hne, ?_⟩
  obtain ⟨reports, hrun, hmem⟩ :=
    compareWebContent_reports puppeteer url page comparisons hl hn hg hx
  refine ⟨reports, hrun, ?_, ?_⟩
  · intro hno
    by_contra hval
    have hin : mkReport c (JSValue.obj []) ∈ reports :=
      (hmem _).2 ⟨c, hc, _, hget, hne _ hval, rfl⟩
    exact hno _ hin ⟨rfl, rfl, rfl, rfl, rfl⟩
  · intro hval r hr hfields
    obtain ⟨d, _, w, hw, hdw, hrd⟩ := (hmem r).1 hr
    subst hrd
    obtain ⟨h1, h2, h3, h4, h5⟩ := hfields
    have hdc : d = c := mkReport_fields_inj h1 h2 h3 h4 h5
    subst hdc
    rw [hget] at hw
    cases hw
    rw [hval, (differs_eq_false_iff _ _).2 rfl] at hdw
    exact Bool.false_ne_true hdw

/-- C4, scenario 4: the monitor `{MonitorID: 3, Selector: "#missing", Type: "text",
Value: {}}` on a page where `#missing` matches nothing: the value read is `{}` and
no report of the run is for this monitor. -/
theorem C4_no_match_yields_empty_witness :
    getElementDetails (Scenario.pageWith "#title" (Scenario.textElement (some "Hello")))
        Scenario.missingMonitor = Except.ok (JSValue.obj []) ∧
      ∃ reports, compareWebContent
          (Scenario.browser (Scenario.pageWith "#title" (Scenario.textElement (some "Hello"))))
          "https://example.test/" [Scenario.missingMonitor] =
          (Except.ok reports, BrowserState.closed) ∧
        ∀ r ∈ reports, ¬ (r.MonitorID = Scenario.missingMonitor.MonitorID ∧
          r.Selector = Scenario.missingMonitor.Selector ∧
          r.Type_ = Scenario.missingMonitor.Type_ ∧
          r.Attributes = Scenario.missingMonitor.Attributes ∧
          r.ExpectedValue = Scenario.missingMonitor.Value) := by
  obtain ⟨hget, _, _, reports, hrun, hiff⟩ := C4_no_match_yields_empty
    (Scenario.browser (Scenario.pageWith "#title" (Scenario.textElement (some "Hello"))))
    "https://example.test/"
    (Scenario.pageWith "#title" (Scenario.textElement (some "Hello")))
    [Scenario.missingMonitor] Scenario.missingMonitor rfl rfl rfl
    (by
      intro c hc
      rw [List.mem_singleton] at hc
      subst hc
      exact ⟨_, rfl⟩)
    (List.mem_singleton.2 rfl) rfl
  exact ⟨hget, reports, hrun, hiff.2 rfl⟩

/-- C5, at the failing input: the attribute monitor with `Attributes:
["__proto__"]` (a non-empty list) reads `{}` from a page on which its selector
matches `img#logo`, the same value it reads from a page on which the selector
matches nothing, so the two states compare equal and neither is reported against
a stored `{}`. -/
theorem C5_present_element_reads_as_absent :
    Scenario.protoMonitor.Attributes ≠ [] ∧
      (Scenario.pageWith "img#logo" Scenario.logoElement).querySelector
          Scenario.protoMonitor.Selector = Except.ok (some Scenario.logoElement) ∧
      getElementDetails (Scenario.pageWith "img#logo" Scenario.logoElement)
          Scenario.protoMonitor = Except.ok (JSValue.obj []) ∧
      (Scenario.pageWith "#title" (Scenario.textElement (some "Hello"))).querySelector
          Scenario.protoMonitor.Selector = Except.ok none ∧
      getElementDetails (Scenario.pageWith "#title" (Scenario.textElement (some "Hello")))
          Scenario.protoMonitor = Except.ok (JSValue.obj []) ∧
      differs (JSValue.obj []) (JSValue.obj []) = false ∧
      compareWebContent (Scenario.browser (Scenario.pageWith "img#logo" Scenario.logoElement))
          "https://example.test/" [Scenario.protoMonitor] =
        (Except.ok [], BrowserState.closed) :=
  ⟨by decide, rfl, rfl, rfl, rfl, by decide, rfl⟩

/-- C6. The encodings of `null` and of the empty string differ, so on a run that
loads the page and extracts every monitor, a monitor whose stored `Value` is one
of the two and whose extracted value is the other is reported. -/
theorem C6_null_differs_from_empty_string (puppeteer : Puppeteer) (url : String)
    (page : Document) (comparisons : List Monitor) (c : Monitor) (v : JSValue)
    (hl : puppeteer.launch = true) (hn : puppeteer.newPage = true)
    (hg : puppeteer.goto url = some page)
    (hx : ∀ d ∈ comparisons, ∃ w, getElementDetails page d = Except.ok w)
    (hc : c ∈ comparisons) (hv : getElementDetails page c = Except.ok v)
    (h : (v = JSValue.null ∧ c.Value = JSValue.str "") ∨
      (v = JSValue.str "" ∧ c.Value = JSValue.null)) :
    stringify JSValue.null ≠ stringify (JSValue.str "") ∧
      ∃ reports, compareWebContent puppeteer url comparisons =
          (Except.ok reports, BrowserState.closed) ∧
        ∃ r ∈ reports, r.MonitorID = c.MonitorID ∧ r.Selector = c.Selector ∧
          r.Type_ = c.Type_ ∧ r.Attributes = c.Attributes ∧ r.ExpectedValue = c.Value ∧
          r.CurrentValue = v := by
  have hne : stringify JSValue.null ≠ stringify (JSValue.str "") := by decide
  refine ⟨hne, ?_⟩
  obtain ⟨reports, hrun, hmem⟩ :=
    compareWebContent_reports puppeteer url page comparisons hl hn hg hx
  refine ⟨reports, hrun, mkReport c v, (hmem _).2 ⟨c, hc, v, hv, ?_, rfl⟩,
    rfl, rfl, rfl, rfl, rfl, rfl⟩
  rw [differs_eq_true_iff]
  rcases h with ⟨h1, h2⟩ | ⟨h1, h2⟩
  · rw [h1, h2]; exact hne
  · rw [h1, h2]; exact fun e => hne e.symm

/-- C6, on an input: the text monitor whose stored value is `""`, on a page whose
`#title` has no text (extracted value `null`), is reported. -/
theorem C6_null_differs_from_empty_string_witness :
    ∃ reports, compareWebContent
        (Scenario.browser (Scenario.pageWith "#title" (Scenario.textElement none)))
        "https://example.test/" [Scenario.emptyTextMonitor] =
        (Except.ok reports, BrowserState.closed) ∧
      ∃ r ∈ reports, r.MonitorID = 5 ∧ r.ExpectedValue = JSValue.str "" ∧
        r.CurrentValue = JSValue.null := by
  obtain ⟨_, reports, hrun, r, hr, h1, _, _, _, h5, h6⟩ := C6_null_differs_from_empty_string
    (Scenario.browser (Scenario.pageWith "#title" (Scenario.textElement none)))
    "https://example.test/"
    (Scenario.pageWith "#title" (Scenario.textElement none))
    [Scenario.emptyTextMonitor] Scenario.emptyTextMonitor JSValue.null rfl rfl rfl
    (by
      intro c hc
      rw [List.mem_singleton] at hc
      subst hc
      exact ⟨_, rfl⟩)
    (List.mem_singleton.2 rfl) rfl (Or.inl ⟨rfl, rfl⟩)
  exact ⟨reports, hrun, r, hr, h1, h5, h6⟩

/-- C7, counterexample: an element whose `textContent` is the empty string and an
element whose `textContent` is `null` both yield `null` for a text monitor, and
the two values compare equal. -/
theorem C7_empty_and_null_text_collapse :
    getElementDetails (Scenario.pageWith "#title" (Scenario.textElement (some "")))
        Scenario.titleMonitor = Except.ok JSValue.null ∧
      getElementDetails (Scenario.pageWith "#title" (Scenario.textElement none))
        Scenario.titleMonitor = Except.ok JSValue.null ∧
      differs JSValue.null JSValue.null = false :=
  ⟨rfl, rfl, by decide⟩

/-- C7, as amended: for an element matched by a text monitor, `getElementDetails`
returns the element's text content when it is a non-empty string, and `null` when
it is the empty string or `null`. -/
theorem C7_text_value (page : Document) (c : Monitor) (e : Element)
    (ht : c.Type_ = "text") (hm : page.querySelector c.Selector = Except.ok (some e)) :
    (∀ s, e.textContent = some s → s ≠ "" →
        getElementDetails page c = Except.ok (JSValue.str s)) ∧
      (e.textContent = some "" ∨ e.textContent = none →
        getElementDetails page c = Except.ok JSValue.null) := by
  rw [getElementDetails_of_match hm, ht]
  constructor
  · intro s hs hne
    simp [evaluateElement, hs, hne]
  · rintro (hs | hs)
    · simp [evaluateElement, hs]
    · simp [evaluateElement, hs]

/-- C7 as amended, on inputs: text `Hello` is returned as it is, an empty text as
`null`. -/
theorem C7_text_value_witness :
    getElementDetails (Scenario.pageWith "#title" (Scenario.textElement (some "Hello")))
        Scenario.titleMonitor = Except.ok (JSValue.str "Hello") ∧
      getElementDetails (Scenario.pageWith "#title" (Scenario.textElement (some "")))
        Scenario.titleMonitor = Except.ok JSValue.null :=
  ⟨(C7_text_value (Scenario.pageWith "#title" (Scenario.textElement (some "Hello")))
      Scenario.titleMonitor (Scenario.textElement (some "Hello")) rfl rfl).1 "Hello" rfl
      (by decide),
    (C7_text_value (Scenario.pageWith "#title" (Scenario.textElement (some "")))
      Scenario.titleMonitor (Scenario.textElement (some "")) rfl rfl).2 (Or.inl rfl)⟩

/-- C8, at the failing input: for the attribute list `["__proto__"]` the mapping
read from a matched element has no key at all, whether the element lacks the
attribute (`img#logo`) or carries it with the value `x`; the requested name
`__proto__` is not a key of the result. -/
theorem C8_proto_name_not_a_key :
    "__proto__" ∈ Scenario.protoMonitor.Attributes ∧
      getElementDetails (Scenario.pageWith "img#logo" Scenario.logoElement)
          Scenario.protoMonitor = Except.ok (JSValue.obj []) ∧
      Scenario.protoElement.getAttribute "__proto__" = some "x" ∧
      getElementDetails (Scenario.pageWith "img#logo" Scenario.protoElement)
          Scenario.protoMonitor = Except.ok (JSValue.obj []) ∧
      "__proto__" ∉ (JSValue.obj []).keys :=
  ⟨by decide, rfl, rfl, rfl, by decide⟩

/-- C9. A text value never compares equal to an attribute mapping: for any two
matched elements (on any pages) and any attribute list, the value read for a text
monitor and the value read for an attribute monitor differ under the comparison
of `compareWebContent`. -/
theorem C9_text_never_equals_attribute_map (page1 page2 : Document) (c1 c2 : Monitor)
    (e1 e2 : Element)
    (ht1 : c1.Type_ = "text") (ht2 : c2.Type_ = "attribute")
    (hm1 : page1.querySelector c1.Selector = Except.ok (some e1))
    (hm2 : page2.querySelector c2.Selector = Except.ok (some e2)) :
    ∃ v1 v2, getElementDetails page1 c1 = Except.ok v1 ∧
      getElementDetails page2 c2 = Except.ok v2 ∧ differs v1 v2 = true := by
  refine ⟨_, _, getElementDetails_of_match hm1, getElementDetails_of_match hm2, ?_⟩
  rw [ht1, ht2, evaluateElement_attribute]
  apply differs_of_ne
  rcases evaluateElement_text e1 c1.Attributes with h | ⟨s, h⟩
  · rw [h]; intro hc; cases hc
  · rw [h]; intro hc; cases hc

/-- C9, on inputs: the text `Hello` of `#title` against the mapping
`{src: "/new.png"}` of `img#logo`. -/
theorem C9_text_never_equals_attribute_map_witness :
    differs (JSValue.str "Hello") (JSValue.obj [("src", JSValue.str "/new.png")]) = true := by
  obtain ⟨v1, v2, h1, h2, hd⟩ := C9_text_never_equals_attribute_map
    (Scenario.pageWith "#title" (Scenario.textElement (some "Hello")))
    (Scenario.pageWith "img#logo" Scenario.logoElement)
    Scenario.titleMonitor Scenario.logoMonitor
    (Scenario.textElement (some "Hello")) Scenario.logoElement rfl rfl rfl rfl
  have e1 : getElementDetails (Scenario.pageWith "#title" (Scenario.textElement (some "Hello")))
      Scenario.titleMonitor = Except.ok (JSValue.str "Hello") := rfl
  have e2 : getElementDetails (Scenario.pageWith "img#logo" Scenario.logoElement)
      Scenario.logoMonitor = Except.ok (JSValue.obj [("src", JSValue.str "/new.png")]) := rfl
  rw [e1] at h1
  rw [e2] at h2
  cases h1
  cases h2
  exact hd

/-- C10, counterexample: for a monitor of the unknown kind `html` whose selector
matches, `getElementDetails` returns `{}`, which does not compare equal to the
placeholder `{custom: {}}` returned for kind `custom`; the monitor, whose stored
value is that placeholder, is reported. -/
theorem C10_unknown_kind_is_not_custom_placeholder :
    getElementDetails (Scenario.pageWith "#title" (Scenario.textElement (some "Hello")))
        Scenario.unknownMonitor = Except.ok (JSValue.obj []) ∧
      evaluateElement (Scenario.textElement (some "Hello")) "custom" [] =
        JSValue.obj [("custom", JSValue.obj [])] ∧
      differs (JSValue.obj []) (JSValue.obj [("custom", JSValue.obj [])]) = true ∧
      (compareWebContent
        (Scenario.browser (Scenario.pageWith "#title" (Scenario.textElement (some "Hello"))))
        "https://example.test/" [Scenario.unknownMonitor]).1 =
        Except.ok [mkReport Scenario.unknownMonitor (JSValue.obj [])] :=
  ⟨rfl, rfl, by decide, rfl⟩

/-- C10, as amended: for a matched element and a monitor whose `Type` is none of
`text`, `attribute`, `style`, `children`, `custom`, `getElementDetails` does not
fail and returns the empty mapping `{}`, which compares unequal to the placeholder
returned for kind `custom`. -/
theorem C10_unknown_kind_yields_empty (page : Document) (c : Monitor) (e : Element)
    (hm : page.querySelector c.Selector = Except.ok (some e))
    (ht : c.Type_ ∉ ["text", "attribute", "style", "children", "custom"]) :
    getElementDetails page c = Except.ok (JSValue.obj []) ∧
      ∀ attrs, differs (JSValue.obj []) (evaluateElement e "custom" attrs) = true := by
  simp only [List.mem_cons, List.mem_singleton, List.not_mem_nil, or_false, not_or] at ht
  obtain ⟨h1, h2, h3, h4, h5⟩ := ht
  constructor
  · rw [getElementDetails_of_match hm]
    simp [evaluateElement, h1, h2, h3, h4, h5]
  · intro attrs
    apply differs_of_ne
    simp [evaluateElement]

/-- C10 as amended, on an input: the kind `html` on a page whose `#title`
matches. -/
theorem C10_unknown_kind_yields_empty_witness :
    getElementDetails (Scenario.pageWith "#title" (Scenario.textElement (some "Hello")))
        Scenario.unknownMonitor = Except.ok (JSValue.obj []) :=
  (C10_unknown_kind_yields_empty
    (Scenario.pageWith "#title" (Scenario.textElement (some "Hello")))
    Scenario.unknownMonitor (Scenario.textElement (some "Hello")) rfl (by decide)).1

/-! ## Runs on a list and on its permutations -/

theorem compareOne_eq_reportOf {page : Document} {c : Monitor} {v : JSValue}
    (h : getElementDetails page c = Except.ok v) :
    compareOne page c = Except.ok (reportOf page c) := by
  rw [compareOne_of_ok h]
  unfold reportOf
  rw [h]

/-- When every extraction succeeds, `Promise.all` resolves with the list of the
`reportOf` results. -/
theorem promiseAll_eq_map (page : Document) : ∀ (cs : List Monitor),
    (∀ c ∈ cs, ∃ v, getElementDetails page c = Except.ok v) →
    promiseAll page cs = Except.ok (cs.map (reportOf page))
  | [], _ => rfl
  | c :: cs, h => by
    obtain ⟨v, hv⟩ := h c (List.mem_cons_self c cs)
    have ih := promiseAll_eq_map page cs (fun d hd => h d (List.mem_cons_of_mem c hd))
    simp only [promiseAll, compareOne_eq_reportOf hv, ih, List.map_cons]

/-- When some extraction fails, `Promise.all` rejects. -/
theorem promiseAll_error (page : Document) : ∀ (cs : List Monitor),
    (∃ c ∈ cs, ∃ e, getElementDetails page c = Except.error e) →
    ∃ e, promiseAll page cs = Except.error e
  | [], h => by
    obtain ⟨c, hc, _⟩ := h
    exact absurd hc (List.not_mem_nil c)
  | c :: cs, h => by
    cases hc : getElementDetails page c with
    | error e =>
      exact ⟨e, by simp only [promiseAll, compareOne, hc]⟩
    | ok v =>
      have hrest : ∃ d ∈ cs, ∃ e, getElementDetails page d = Except.error e := by
        obtain ⟨d, hd, e, he⟩ := h
        rcases List.mem_cons.1 hd with hd | hd
        · rw [hd, hc] at he
          cases he
        · exact ⟨d, hd, e, he⟩
      obtain ⟨e, he⟩ := promiseAll_error page cs hrest
      exact ⟨e, by simp only [promiseAll, compareOne_eq_reportOf hc, he]⟩

theorem navigateToPage_ok {puppeteer : Puppeteer} {url : String} {page : Document}
    (hl : puppeteer.launch = true) (hn : puppeteer.newPage = true)
    (hg : puppeteer.goto url = some page) :
    navigateToPage puppeteer url = (Except.ok page, BrowserState.running) := by
  simp [navigateToPage, hl, hn, hg]

/-- A run that loads the page and extracts every monitor returns the `reportOf`
results of the monitors, in input order. -/
theorem compareWebContent_eq_filterMap (puppeteer : Puppeteer) (url : String)
    (page : Document) (comparisons : List Monitor)
    (hl : puppeteer.launch = true) (hn : puppeteer.newPage = true)
    (hg : puppeteer.goto url = some page)
    (hx : ∀ c ∈ comparisons, ∃ v, getElementDetails page c = Except.ok v) :
    compareWebContent puppeteer url comparisons =
      (Except.ok (comparisons.filterMap (reportOf page)), BrowserState.closed) := by
  simp only [compareWebContent, navigateToPage_ok hl hn hg,
    promiseAll_eq_map page comparisons hx, List.filterMap_map]
  rfl

/-- A run that loads the page and on which some extraction fails throws and
leaves the browser running. -/
theorem compareWebContent_extraction_failure (puppeteer : Puppeteer) (url : String)
    (page : Document) (comparisons : List Monitor)
    (hl : puppeteer.launch = true) (hn : puppeteer.newPage = true)
    (hg : puppeteer.goto url = some page)
    (hx : ∃ c ∈ comparisons, ∃ e, getElementDetails page c = Except.error e) :
    ∃ e, compareWebContent puppeteer url comparisons =
      (Except.error e, BrowserState.running) := by
  obtain ⟨e, he⟩ := promiseAll_error page comparisons hx
  exact ⟨e, by simp only [compareWebContent, navigateToPage_ok hl hn hg, he]⟩

/-- A run whose browser does not launch, whose page cannot be opened or whose
navigation fails throws whatever the monitors are. -/
theorem compareWebContent_navigation_failure (puppeteer : Puppeteer) (url : String)
    (comparisons : List Monitor) (e : Failure) (st : BrowserState)
    (h : navigateToPage puppeteer url = (Except.error e, st)) :
    compareWebContent puppeteer url comparisons = (Except.error e, st) := by
  simp only [compareWebContent, h]

theorem navigateToPage_cases (puppeteer : Puppeteer) (url : String) :
    (∃ e st, navigateToPage puppeteer url = (Except.error e, st)) ∨
      ∃ page, puppeteer.launch = true ∧ puppeteer.newPage = true ∧
        puppeteer.goto url = some page := by
  unfold navigateToPage
  by_cases hl : puppeteer.launch = false
  · exact Or.inl ⟨_, _, by rw [if_pos hl]⟩
  · by_cases hn : puppeteer.newPage = false
    · exact Or.inl ⟨_, _, by rw [if_neg hl, if_pos hn]⟩
    · cases hg : puppeteer.goto url with
      | none => exact Or.inl ⟨_, _, by rw [if_neg hl, if_neg hn]⟩
      | some page =>
        exact Or.inr ⟨page, by simpa using hl, by simpa using hn, rfl⟩

theorem extraction_ok_or_error (page : Document) (comparisons : List Monitor) :
    (∀ c ∈ comparisons, ∃ v, getElementDetails page c = Except.ok v) ∨
      ∃ c ∈ comparisons, ∃ e, getElementDetails page c = Except.error e := by
  by_cases h : ∀ c ∈ comparisons, ∃ v, getElementDetails page c = Except.ok v
  · exact Or.inl h
  · right
    push_neg at h
    obtain ⟨c, hc, hne⟩ := h
    cases hg : getElementDetails page c with
    | ok v => exact absurd hg (hne v)
    | error e => exact ⟨c, hc, e, hg⟩

/-! ## The claims on runs -/

/-- C11. On a run that loads the page and extracts every monitor, every report
of the returned list comes from a monitor of the input list: the monitor's
`MonitorID`, `Selector`, `Type` and `Attributes` are the report's, its `Value` is
the report's `ExpectedValue`, and its extracted value is the report's
`CurrentValue`. -/
theorem C11_report_traceable (puppeteer : Puppeteer) (url : String) (page : Document)
    (comparisons : List Monitor)
    (hl : puppeteer.launch = true) (hn : puppeteer.newPage = true)
    (hg : puppeteer.goto url = some page)
    (hx : ∀ c ∈ comparisons, ∃ v, getElementDetails page c = Except.ok v) :
    ∃ reports, compareWebContent puppeteer url comparisons =
        (Except.ok reports, BrowserState.closed) ∧
      ∀ r ∈ reports, ∃ c ∈ comparisons,
        c.MonitorID = r.MonitorID ∧ c.Selector = r.Selector ∧ c.Type_ = r.Type_ ∧
        c.Attributes = r.Attributes ∧ c.Value = r.ExpectedValue ∧
        getElementDetails page c = Except.ok r.CurrentValue := by
  obtain ⟨reports, hrun, hmem⟩ :=
    compareWebContent_reports puppeteer url page comparisons hl hn hg hx
  refine ⟨reports, hrun, ?_⟩
  intro r hr
  obtain ⟨c, hc, v, hv, _, hrc⟩ := (hmem r).1 hr
  subst hrc
  exact ⟨c, hc, rfl, rfl, rfl, rfl, rfl, hv⟩

/-- C11, on an input: the report of scenario 2 comes from the monitor with
`MonitorID` 1. -/
theorem C11_report_traceable_witness :
    ∃ reports, compareWebContent
        (Scenario.browser (Scenario.pageWith "#title" (Scenario.textElement (some "Hello World"))))
        "https://example.test/" [Scenario.titleMonitor] =
        (Except.ok reports, BrowserState.closed) ∧
      ∀ r ∈ reports, r.MonitorID = 1 ∧ r.ExpectedValue = JSValue.str "Hello" := by
  obtain ⟨reports, hrun, htrace⟩ := C11_report_traceable
    (Scenario.browser (Scenario.pageWith "#title" (Scenario.textElement (some "Hello World"))))
    "https://example.test/"
    (Scenario.pageWith "#title" (Scenario.textElement (some "Hello World")))
    [Scenario.titleMonitor] rfl rfl rfl
    (by
      intro c hc
      rw [List.mem_singleton] at hc
      subst hc
      exact ⟨_, rfl⟩)
  refine ⟨reports, hrun, ?_⟩
  intro r hr
  obtain ⟨c, hc, h1, _, _, _, h5, _⟩ := htrace r hr
  rw [List.mem_singleton] at hc
  subst hc
  exact ⟨h1.symm, h5.symm⟩

/-- C12. Running `compareWebContent` on a permutation of the monitor list: either
both runs return, and the two returned lists are permutations of each other, or
both runs fail (and leave the browser in the same state). -/
theorem C12_permutation_invariant (puppeteer : Puppeteer) (url : String)
    (comparisons permuted : List Monitor) (hperm : comparisons.Perm permuted) :
    (∃ reports reports2,
        compareWebContent puppeteer url comparisons =
          (Except.ok reports, BrowserState.closed) ∧
        compareWebContent puppeteer url permuted =
          (Except.ok reports2, BrowserState.closed) ∧
        reports.Perm reports2) ∨
      ∃ e e2 st,
        compareWebContent puppeteer url comparisons = (Except.error e, st) ∧
        compareWebContent puppeteer url permuted = (Except.error e2, st) := by
  rcases navigateToPage_cases puppeteer url with ⟨e, st, hnav⟩ | ⟨page, hl, hn, hg⟩
  · exact Or.inr ⟨e, e, st,
      compareWebContent_navigation_failure puppeteer url comparisons e st hnav,
      compareWebContent_navigation_failure puppeteer url permuted e st hnav⟩
  · rcases extraction_ok_or_error page comparisons with hx | ⟨c, hc, e, he⟩
    · have hx2 : ∀ c ∈ permuted, ∃ v, getElementDetails page c = Except.ok v :=
        fun c hc => hx c (hperm.mem_iff.2 hc)
      exact Or.inl ⟨_, _,
        compareWebContent_eq_filterMap puppeteer url page comparisons hl hn hg hx,
        compareWebContent_eq_filterMap puppeteer url page permuted hl hn hg hx2,
        hperm.filterMap _⟩
    · obtain ⟨e1, h1⟩ := compareWebContent_extraction_failure puppeteer url page comparisons
        hl hn hg ⟨c, hc, e, he⟩
      obtain ⟨e2, h2⟩ := compareWebContent_extraction_failure puppeteer url page permuted
        hl hn hg ⟨c, hperm.mem_iff.1 hc, e, he⟩
      exact Or.inr ⟨e1, e2, _, h1, h2⟩

/-- C12, scenario 5: of the two monitors of `#title`, one expecting `Hello` (the
live text) and one expecting `Bye`, exactly the second is reported, in either
order of the list. -/
theorem C12_permutation_invariant_witness :
    compareWebContent
        (Scenario.browser (Scenario.pageWith "#title" (Scenario.textElement (some "Hello"))))
        "https://example.test/" [Scenario.byeMonitor, Scenario.titleMonitor] =
      (Except.ok [mkReport Scenario.byeMonitor (JSValue.str "Hello")], BrowserState.closed) ∧
    ∃ reports2, compareWebContent
        (Scenario.browser (Scenario.pageWith "#title" (Scenario.textElement (some "Hello"))))
        "https://example.test/" [Scenario.titleMonitor, Scenario.byeMonitor] =
        (Except.ok reports2, BrowserState.closed) ∧
      [mkReport Scenario.byeMonitor (JSValue.str "Hello")].Perm reports2 := by
  have h1 : compareWebContent
      (Scenario.browser (Scenario.pageWith "#title" (Scenario.textElement (some "Hello"))))
      "https://example.test/" [Scenario.byeMonitor, Scenario.titleMonitor] =
      (Except.ok [mkReport Scenario.byeMonitor (JSValue.str "Hello")], BrowserState.closed) :=
    rfl
  refine ⟨h1, ?_⟩
  rcases C12_permutation_invariant
    (Scenario.browser (Scenario.pageWith "#title" (Scenario.textElement (some "Hello"))))
    "https://example.test/" [Scenario.byeMonitor, Scenario.titleMonitor]
    [Scenario.titleMonitor, Scenario.byeMonitor] (List.Perm.swap _ _ _) with
    ⟨reports, reports2, hr1, hr2, hp⟩ | ⟨e, e2, st, he, _⟩
  · rw [h1] at hr1
    cases hr1
    exact ⟨reports2, hr2, hp⟩
  · rw [h1] at he
    cases he

/-- C14. A run is all or nothing: on a loaded page, if the extraction of at least
one monitor fails the run fails and returns no list, and the run returns a list
exactly when the extraction of every monitor succeeds. -/
theorem C14_all_or_nothing (puppeteer : Puppeteer) (url : String) (page : Document)
    (comparisons : List Monitor)
    (hl : puppeteer.launch = true) (hn : puppeteer.newPage = true)
    (hg : puppeteer.goto url = some page) :
    ((∃ c ∈ comparisons, ∃ e, getElementDetails page c = Except.error e) →
        ∃ e st, compareWebContent puppeteer url comparisons = (Except.error e, st)) ∧
      ((∃ reports st, compareWebContent puppeteer url comparisons = (Except.ok reports, st)) ↔
        ∀ c ∈ comparisons, ∃ v, getElementDetails page c = Except.ok v) := by
  have hfail : (∃ c ∈ comparisons, ∃ e, getElementDetails page c = Except.error e) →
      ∃ e st, compareWebContent puppeteer url comparisons = (Except.error e, st) := by
    intro h
    obtain ⟨e, he⟩ := compareWebContent_extraction_failure puppeteer url page comparisons
      hl hn hg h
    exact ⟨e, _, he⟩
  refine ⟨hfail, ?_, ?_⟩
  · rintro ⟨reports, st, hrun⟩
    rcases extraction_ok_or_error page comparisons with hx | hx
    · exact hx
    · obtain ⟨e, st2, he⟩ := hfail hx
      rw [hrun] at he
      cases he
  · intro hx
    exact ⟨_, _, compareWebContent_eq_filterMap puppeteer url page comparisons hl hn hg hx⟩

/-- C14, on an input: with one monitor whose selector is not valid, the run
fails although the other two monitors can be extracted, one of them changed. -/
theorem C14_all_or_nothing_witness :
    ∃ e st, compareWebContent
        (Scenario.browser (Scenario.strictPage "#title" (Scenario.textElement (some "Hello"))))
        "https://example.test/"
        [Scenario.byeMonitor, Scenario.brokenMonitor, Scenario.titleMonitor] =
      (Except.error e, st) :=
  (C14_all_or_nothing
    (Scenario.browser (Scenario.strictPage "#title" (Scenario.textElement (some "Hello"))))
    "https://example.test/"
    (Scenario.strictPage "#title" (Scenario.textElement (some "Hello")))
    [Scenario.byeMonitor, Scenario.brokenMonitor, Scenario.titleMonitor] rfl rfl rfl).1
    ⟨Scenario.brokenMonitor, by simp, Failure.extraction, rfl⟩

/-- C18. A run that loads the page and extracts every monitor keeps the input
order: the returned reports are, in order, the reports of a sublist of the input
list, so there are at most as many reports as monitors. -/
theorem C18_input_order_preserved (puppeteer : Puppeteer) (url : String) (page : Document)
    (comparisons : List Monitor)
    (hl : puppeteer.launch = true) (hn : puppeteer.newPage = true)
    (hg : puppeteer.goto url = some page)
    (hx : ∀ c ∈ comparisons, ∃ v, getElementDetails page c = Except.ok v) :
    ∃ reports, compareWebContent puppeteer url comparisons =
        (Except.ok reports, BrowserState.closed) ∧
      (∃ sub, sub.Sublist comparisons ∧
        List.Forall₂ (fun c r => ∃ v, getElementDetails page c = Except.ok v ∧
          r = mkReport c v) sub reports) ∧
      reports.length ≤ comparisons.length := by
  obtain ⟨results, hrun, hall⟩ :=
    compareWebContent_ok puppeteer url page comparisons hl hn hg hx
  have hf := forall₂_filter_changed hall
  refine ⟨_, hrun, ⟨comparisons.filter (valueChanged page), List.filter_sublist _, ?_⟩, ?_⟩
  · refine List.Forall₂.imp ?_ hf
    rintro c r ⟨v, hv, _, hr⟩
    exact ⟨v, hv, hr⟩
  · rw [← hf.length_eq]
    exact List.length_filter_le _ _

/-- C18, on an input: with the monitors 8 (expects `Bye`), 1 (expects `Hello`)
and 5 (expects the empty string) of `#title`, in this order, on a page whose
`#title` reads `Hello`, the reports are those of monitors 8 and 5, in that
order. -/
theorem C18_input_order_preserved_witness :
    ∃ reports, compareWebContent
        (Scenario.browser (Scenario.pageWith "#title" (Scenario.textElement (some "Hello"))))
        "https://example.test/"
        [Scenario.byeMonitor, Scenario.titleMonitor, Scenario.emptyTextMonitor] =
        (Except.ok reports, BrowserState.closed) ∧
      reports.length ≤ 3 ∧
      reports.map (fun r => r.MonitorID) = [8, 5] := by
  obtain ⟨reports, hrun, _, hlen⟩ := C18_input_order_preserved
    (Scenario.browser (Scenario.pageWith "#title" (Scenario.textElement (some "Hello"))))
    "https://example.test/"
    (Scenario.pageWith "#title" (Scenario.textElement (some "Hello")))
    [Scenario.byeMonitor, Scenario.titleMonitor, Scenario.emptyTextMonitor] rfl rfl rfl
    (by
      intro c hc
      simp only [List.mem_cons, List.mem_singleton, List.not_mem_nil, or_false] at hc
      rcases hc with rfl | rfl | rfl <;> exact ⟨_, rfl⟩)
  refine ⟨reports, hrun, hlen, ?_⟩
  have h2 : compareWebContent
      (Scenario.browser (Scenario.pageWith "#title" (Scenario.textElement (some "Hello"))))
      "https://example.test/"
      [Scenario.byeMonitor, Scenario.titleMonitor, Scenario.emptyTextMonitor] =
      (Except.ok [mkReport Scenario.byeMonitor (JSValue.str "Hello"),
        mkReport Scenario.emptyTextMonitor (JSValue.str "Hello")], BrowserState.closed) := rfl
  rw [h2] at hrun
  cases hrun
  rfl

/-! ## The claims on failure, children, kinds and report fields -/

/-- C13, at the failing input: with a browser that launches and opens a page but
whose `page.goto` fails, `compareWebContent` throws the navigation failure and
returns no list, and the browser it launched is left running, not closed. -/
theorem C13_navigation_failure_leaves_browser_running :
    Scenario.offlineBrowser.launch = true ∧ Scenario.offlineBrowser.newPage = true ∧
      Scenario.offlineBrowser.goto "https://example.test/" = none ∧
      compareWebContent Scenario.offlineBrowser "https://example.test/"
          [Scenario.titleMonitor] =
        (Except.error Failure.navigation, BrowserState.running) ∧
      BrowserState.running ≠ BrowserState.closed :=
  ⟨rfl, rfl, rfl, rfl, by decide⟩

/-- On every run whose browser launches and whose navigation fails, the failure
is thrown, no list is returned and the browser is left running. -/
theorem compareWebContent_goto_failure (puppeteer : Puppeteer) (url : String)
    (comparisons : List Monitor)
    (hl : puppeteer.launch = true) (hn : puppeteer.newPage = true)
    (hg : puppeteer.goto url = none) :
    compareWebContent puppeteer url comparisons =
      (Except.error Failure.navigation, BrowserState.running) := by
  apply compareWebContent_navigation_failure
  simp [navigateToPage, hl, hn, hg]

theorem evaluateElement_children (e : Element) (attrs : List String) :
    evaluateElement e "children" attrs =
      JSValue.obj [("children",
        JSValue.str (String.join (e.children.map (fun child => child.outerHTML))))] := by
  simp [evaluateElement]

/-- C15, counterexample: for the children monitor of `ul#list` the value returned
is the mapping `{children: "<li>a</li><li>b</li>"}`, not the string
`<li>a</li><li>b</li>`; the mapping does not compare equal to the string, and
the monitor, which stores the string, is reported. -/
theorem C15_children_value_is_wrapped :
    getElementDetails (Scenario.pageWith "ul#list" Scenario.listElement)
        Scenario.listMonitor =
      Except.ok (JSValue.obj [("children", JSValue.str "<li>a</li><li>b</li>")]) ∧
    differs (JSValue.obj [("children", JSValue.str "<li>a</li><li>b</li>")])
      (JSValue.str "<li>a</li><li>b</li>") = true ∧
    (compareWebContent (Scenario.browser (Scenario.pageWith "ul#list" Scenario.listElement))
      "https://example.test/" [Scenario.listMonitor]).1 =
      Except.ok [mkReport Scenario.listMonitor
        (JSValue.obj [("children", JSValue.str "<li>a</li><li>b</li>")])] :=
  ⟨rfl, by decide, rfl⟩

/-- C15, as amended: for an element matched by a children monitor,
`getElementDetails` returns the mapping with the single key `children` whose
value is the concatenation, in document order and without separator, of the outer
markup of the child elements (the empty string when there is none); the values
of two elements compare equal exactly when the two concatenations are the same
string. -/
theorem C15_children_value (page : Document) (c : Monitor) (e : Element)
    (ht : c.Type_ = "children")
    (hm : page.querySelector c.Selector = Except.ok (some e)) :
    getElementDetails page c =
        Except.ok (JSValue.obj [("children",
          JSValue.str (String.join (e.children.map (fun child => child.outerHTML))))]) ∧
      (e.children = [] →
        getElementDetails page c = Except.ok (JSValue.obj [("children", JSValue.str "")])) ∧
      ∀ (e2 : Element) (attrs attrs2 : List String),
        (differs (evaluateElement e "children" attrs)
            (evaluateElement e2 "children" attrs2) = false ↔
          String.join (e.children.map (fun child => child.outerHTML)) =
            String.join (e2.children.map (fun child => child.outerHTML))) := by
  have hget := getElementDetails_of_match hm
  rw [ht, evaluateElement_children] at hget
  refine ⟨hget, ?_, ?_⟩
  · intro hnil
    rw [hget, hnil]
    rfl
  · intro e2 attrs attrs2
    rw [differs_eq_false_iff, evaluateElement_children, evaluateElement_children]
    constructor
    · intro h
      simpa using h
    · intro h
      rw [h]

/-- C15 as amended, on an input: the children of `ul#list`. -/
theorem C15_children_value_witness :
    getElementDetails (Scenario.pageWith "ul#list" Scenario.listElement)
        Scenario.wrappedListMonitor =
      Except.ok (JSValue.obj [("children", JSValue.str "<li>a</li><li>b</li>")]) :=
  (C15_children_value (Scenario.pageWith "ul#list" Scenario.listElement)
    Scenario.wrappedListMonitor Scenario.listElement rfl rfl).1

theorem mem_assign_props {o : JSObject} {k : String} {v : Option String}
    {p : String × JSValue} (h : p ∈ (o.assign k v).props) :
    p = (k, JSValue.ofNullable v) ∨ p ∈ o.props := by
  unfold JSObject.assign at h
  by_cases hk : k = "__proto__" ∧ o.nullProto = false
  · rw [if_pos hk] at h
    cases v with
    | none => exact Or.inr h
    | some s => exact Or.inr h
  · rw [if_neg hk] at h
    exact mem_defineOwn h

/-- Whatever the names, every value of the attribute mapping is a string or
`null`. -/
theorem foldl_assign_values (e : Element) : ∀ (attrs : List String) (o : JSObject),
    (∀ p ∈ o.props, ∃ x, p.2 = JSValue.ofNullable x) →
    ∀ p ∈ (attrs.foldl (fun attributesDetails attr =>
        attributesDetails.assign attr (e.getAttribute attr)) o).props,
      ∃ x, p.2 = JSValue.ofNullable x
  | [], _, h => h
  | a :: attrs, o, h => by
    rw [List.foldl_cons]
    apply foldl_assign_values e attrs
    intro p hp
    rcases mem_assign_props hp with hp | hp
    · exact ⟨e.getAttribute a, by rw [hp]⟩
    · exact h p hp

theorem evaluateElement_attribute_values (e : Element) (attrs : List String) :
    ∃ ps, evaluateElement e "attribute" attrs = JSValue.obj ps ∧
      ∀ p ∈ ps, ∃ x, p.2 = JSValue.ofNullable x :=
  ⟨_, evaluateElement_attribute e attrs,
    foldl_assign_values e attrs JSObject.empty (by simp [JSObject.empty])⟩

theorem evaluateElement_style (e : Element) (attrs : List String) :
    ∃ qs, evaluateElement e "style" attrs = JSValue.obj [("style", JSValue.obj qs)] :=
  ⟨(e.styleNames.foldl (fun acc propName =>
      acc.assign propName (some (e.styleValue propName))) JSObject.empty).props,
    by simp [evaluateElement, JSObject.toValue]⟩

theorem evaluateElement_custom (e : Element) (attrs : List String) :
    evaluateElement e "custom" attrs = JSValue.obj [("custom", JSValue.obj [])] := by
  simp [evaluateElement]

theorem ofNullable_ne_obj (x : Option String) (qs : List (String × JSValue)) :
    JSValue.ofNullable x ≠ JSValue.obj qs := by
  cases x <;> simp [JSValue.ofNullable]

theorem text_ne_obj (e : Element) (attrs : List String) (ps : List (String × JSValue)) :
    evaluateElement e "text" attrs ≠ JSValue.obj ps := by
  rcases evaluateElement_text e attrs with h | ⟨s, h⟩
  · rw [h]; intro hc; cases hc
  · rw [h]; intro hc; cases hc

theorem attribute_ne_wrapped_obj (e : Element) (attrs : List String) (k : String)
    (qs : List (String × JSValue)) :
    evaluateElement e "attribute" attrs ≠ JSValue.obj [(k, JSValue.obj qs)] := by
  obtain ⟨ps, hps, hval⟩ := evaluateElement_attribute_values e attrs
  rw [hps]
  intro hc
  have hps2 : ps = [(k, JSValue.obj qs)] := JSValue.obj.inj hc
  obtain ⟨x, hx⟩ := hval (k, JSValue.obj qs) (by rw [hps2]; exact List.mem_singleton.2 rfl)
  exact ofNullable_ne_obj x qs hx.symm

/-- Values of two different kinds, the pair attribute and children apart, are
different values. -/
theorem kinds_ne (t1 t2 : String) (e1 e2 : Element) (a1 a2 : List String)
    (h1 : t1 ∈ ["text", "attribute", "style", "children", "custom"])
    (h2 : t2 ∈ ["text", "attribute", "style", "children", "custom"])
    (hne : t1 ≠ t2)
    (hx1 : ¬ (t1 = "attribute" ∧ t2 = "children"))
    (hx2 : ¬ (t1 = "children" ∧ t2 = "attribute")) :
    evaluateElement e1 t1 a1 ≠ evaluateElement e2 t2 a2 := by
  obtain ⟨q1, hs1⟩ := evaluateElement_style e1 a1
  obtain ⟨q2, hs2⟩ := evaluateElement_style e2 a2
  obtain ⟨p1, hp1, _⟩ := evaluateElement_attribute_values e1 a1
  obtain ⟨p2, hp2, _⟩ := evaluateElement_attribute_values e2 a2
  have hc1 := evaluateElement_children e1 a1
  have hc2 := evaluateElement_children e2 a2
  have hk1 := evaluateElement_custom e1 a1
  have hk2 := evaluateElement_custom e2 a2
  simp only [List.mem_cons, List.mem_singleton, List.not_mem_nil, or_false] at h1 h2
  rcases h1 with rfl | rfl | rfl | rfl | rfl <;>
    rcases h2 with rfl | rfl | rfl | rfl | rfl
  · exact absurd rfl hne
  · rw [hp2]; exact text_ne_obj e1 a1 _
  · rw [hs2]; exact text_ne_obj e1 a1 _
  · rw [hc2]; exact text_ne_obj e1 a1 _
  · rw [hk2]; exact text_ne_obj e1 a1 _
  · rw [hp1]; exact (text_ne_obj e2 a2 _).symm
  · exact absurd rfl hne
  · rw [hs2]; exact attribute_ne_wrapped_obj e1 a1 _ _
  · exact absurd ⟨rfl, rfl⟩ hx1
  · rw [hk2]; exact attribute_ne_wrapped_obj e1 a1 _ _
  · rw [hs1]; exact (text_ne_obj e2 a2 _).symm
  · rw [hs1]; exact (attribute_ne_wrapped_obj e2 a2 _ _).symm
  · exact absurd rfl hne
  · rw [hs1, hc2]; simp
  · rw [hs1, hk2]; simp
  · rw [hc1]; exact (text_ne_obj e2 a2 _).symm
  · exact absurd ⟨rfl, rfl⟩ hx2
  · rw [hc1, hs2]; simp
  · exact absurd rfl hne
  · rw [hc1, hk2]; simp
  · rw [hk1]; exact (text_ne_obj e2 a2 _).symm
  · rw [hk1]; exact (attribute_ne_wrapped_obj e2 a2 _ _).symm
  · rw [hk1, hs2]; simp
  · rw [hk1, hc2]; simp
  · exact absurd rfl hne

/-- C16, counterexample: the attribute mapping read with `Attributes:
["children"]` from an element carrying `children="<li>a</li><li>b</li>"` and the
children value read from `ul#list` are both `{children: "<li>a</li><li>b</li>"}`
and compare equal, although the kinds attribute and children differ. -/
theorem C16_attribute_equals_children :
    Scenario.childrenAttributeMonitor.Type_ = "attribute" ∧
      Scenario.wrappedListMonitor.Type_ = "children" ∧
      getElementDetails (Scenario.pageWith "div#x" Scenario.childrenAttributeElement)
          Scenario.childrenAttributeMonitor =
        Except.ok (JSValue.obj [("children", JSValue.str "<li>a</li><li>b</li>")]) ∧
      getElementDetails (Scenario.pageWith "ul#list" Scenario.listElement)
          Scenario.wrappedListMonitor =
        Except.ok (JSValue.obj [("children", JSValue.str "<li>a</li><li>b</li>")]) ∧
      differs (JSValue.obj [("children", JSValue.str "<li>a</li><li>b</li>")])
        (JSValue.obj [("children", JSValue.str "<li>a</li><li>b</li>")]) = false :=
  ⟨rfl, rfl, rfl, rfl, by decide⟩

/-- C16, as amended: for two distinct kinds among text, attribute, style,
children and custom other than the pair attribute and children, and any two
matched elements and attribute lists, the two values read never compare equal. -/
theorem C16_distinct_kinds_differ (page1 page2 : Document) (c1 c2 : Monitor)
    (e1 e2 : Element)
    (ht1 : c1.Type_ ∈ ["text", "attribute", "style", "children", "custom"])
    (ht2 : c2.Type_ ∈ ["text", "attribute", "style", "children", "custom"])
    (hne : c1.Type_ ≠ c2.Type_)
    (hx1 : ¬ (c1.Type_ = "attribute" ∧ c2.Type_ = "children"))
    (hx2 : ¬ (c1.Type_ = "children" ∧ c2.Type_ = "attribute"))
    (hm1 : page1.querySelector c1.Selector = Except.ok (some e1))
    (hm2 : page2.querySelector c2.Selector = Except.ok (some e2)) :
    ∃ v1 v2, getElementDetails page1 c1 = Except.ok v1 ∧
      getElementDetails page2 c2 = Except.ok v2 ∧ differs v1 v2 = true :=
  ⟨_, _, getElementDetails_of_match hm1, getElementDetails_of_match hm2,
    differs_of_ne (kinds_ne _ _ e1 e2 _ _ ht1 ht2 hne hx1 hx2)⟩

/-- C16 as amended, on inputs: the children value of `ul#list` against the text
of `#title`. -/
theorem C16_distinct_kinds_differ_witness :
    differs (JSValue.obj [("children", JSValue.str "<li>a</li><li>b</li>")])
      (JSValue.str "Hello") = true := by
  obtain ⟨v1, v2, h1, h2, hd⟩ := C16_distinct_kinds_differ
    (Scenario.pageWith "ul#list" Scenario.listElement)
    (Scenario.pageWith "#title" (Scenario.textElement (some "Hello")))
    Scenario.wrappedListMonitor Scenario.titleMonitor
    Scenario.listElement (Scenario.textElement (some "Hello"))
    (by decide) (by decide) (by decide) (by decide) (by decide) rfl rfl
  have e1 : getElementDetails (Scenario.pageWith "ul#list" Scenario.listElement)
      Scenario.wrappedListMonitor =
      Except.ok (JSValue.obj [("children", JSValue.str "<li>a</li><li>b</li>")]) := rfl
  have e2 : getElementDetails (Scenario.pageWith "#title" (Scenario.textElement (some "Hello")))
      Scenario.titleMonitor = Except.ok (JSValue.str "Hello") := rfl
  rw [e1] at h1
  rw [e2] at h2
  cases h1
  cases h2
  exact hd

/-- The object literal of `compareWebContent` has the properties of the report
built by `mkReport`, in the same order. -/
theorem reportLiteral_eq (c : Monitor) (v : JSValue) :
    reportLiteral c v = (mkReport c v).toObject := by
  simp [reportLiteral, Monitor.toObject, defineOwn, arrayIndex?, Report.toObject, mkReport]

/-- C17, counterexample: the monitor of scenario 2 has exactly the properties
`MonitorID`, `Selector`, `Type`, `Attributes` and `Value`, and its report has a
seventh property, `Value`, next to the six of the claim. -/
theorem C17_report_keeps_value_field :
    Scenario.titleMonitor.toObject.map Prod.fst =
        ["MonitorID", "Selector", "Type", "Attributes", "Value"] ∧
      (compareWebContent
        (Scenario.browser (Scenario.pageWith "#title" (Scenario.textElement (some "Hello World"))))
        "https://example.test/" [Scenario.titleMonitor]).1 =
        Except.ok [mkReport Scenario.titleMonitor (JSValue.str "Hello World")] ∧
      (reportLiteral Scenario.titleMonitor (JSValue.str "Hello World")).map Prod.fst =
        ["MonitorID", "Selector", "Type", "Attributes", "Value", "ExpectedValue",
          "CurrentValue"] ∧
      "Value" ∉ ["MonitorID", "Selector", "Type", "Attributes", "ExpectedValue",
        "CurrentValue"] :=
  ⟨rfl, rfl, rfl, by decide⟩

/-- C17, as amended: on a run that loads the page and extracts every monitor,
every report is the object literal built from a monitor of the list and its
extracted value, and has exactly the properties `MonitorID`, `Selector`, `Type`,
`Attributes`, `Value`, `ExpectedValue` and `CurrentValue`. -/
theorem C17_report_fields (puppeteer : Puppeteer) (url : String) (page : Document)
    (comparisons : List Monitor)
    (hl : puppeteer.launch = true) (hn : puppeteer.newPage = true)
    (hg : puppeteer.goto url = some page)
    (hx : ∀ c ∈ comparisons, ∃ v, getElementDetails page c = Except.ok v) :
    ∃ reports, compareWebContent puppeteer url comparisons =
        (Except.ok reports, BrowserState.closed) ∧
      ∀ r ∈ reports,
        (∃ c ∈ comparisons, ∃ v, getElementDetails page c = Except.ok v ∧
          r.toObject = reportLiteral c v) ∧
        r.toObject.map Prod.fst =
          ["MonitorID", "Selector", "Type", "Attributes", "Value", "ExpectedValue",
            "CurrentValue"] := by
  obtain ⟨reports, hrun, hmem⟩ :=
    compareWebContent_reports puppeteer url page comparisons hl hn hg hx
  refine ⟨reports, hrun, ?_⟩
  intro r hr
  obtain ⟨c, hc, v, hv, _, hrc⟩ := (hmem r).1 hr
  subst hrc
  exact ⟨⟨c, hc, v, hv, (reportLiteral_eq c v).symm⟩, rfl⟩

/-- C17 as amended, on an input: the report of scenario 2. -/
theorem C17_report_fields_witness :
    ∃ reports, compareWebContent
        (Scenario.browser (Scenario.pageWith "#title" (Scenario.textElement (some "Hello World"))))
        "https://example.test/" [Scenario.titleMonitor] =
        (Except.ok reports, BrowserState.closed) ∧
      ∀ r ∈ reports, r.toObject.map Prod.fst =
        ["MonitorID", "Selector", "Type", "Attributes", "Value", "ExpectedValue",
          "CurrentValue"] := by
  obtain ⟨reports, hrun, hall⟩ := C17_report_fields
    (Scenario.browser (Scenario.pageWith "#title" (Scenario.textElement (some "Hello World"))))
    "https://example.test/"
    (Scenario.pageWith "#title" (Scenario.textElement (some "Hello World")))
    [Scenario.titleMonitor] rfl rfl rfl
    (by
      intro c hc
      rw [List.mem_singleton] at hc
      subst hc
      exact ⟨_, rfl⟩)
  exact ⟨reports, hrun, fun r hr => (hall r hr).2⟩

theorem evaluateElement_text_nonempty (e : Element) (attrs : List String) :
    evaluateElement e "text" attrs = JSValue.null ∨
      ∃ s, s ≠ "" ∧ evaluateElement e "text" attrs = JSValue.str s := by
  cases ht : e.textContent with
  | none => exact Or.inl (by simp [evaluateElement, ht])
  | some s =>
    by_cases hs : s = ""
    · exact Or.inl (by simp [evaluateElement, ht, hs])
    · exact Or.inr ⟨s, hs, by simp [evaluateElement, ht, hs]⟩

/-- C19. For an element matched by a text monitor, `getElementDetails` returns
`null` or a non-empty string, never the empty string; so on a run that loads the
page and extracts every monitor, a text monitor whose stored `Value` is the
empty string is reported, whatever the page. -/
theorem C19_text_never_empty_string (puppeteer : Puppeteer) (url : String)
    (page : Document) (comparisons : List Monitor) (c : Monitor)
    (hl : puppeteer.launch = true) (hn : puppeteer.newPage = true)
    (hg : puppeteer.goto url = some page)
    (hx : ∀ d ∈ comparisons, ∃ v, getElementDetails page d = Except.ok v)
    (hc : c ∈ comparisons) (ht : c.Type_ = "text") (hval : c.Value = JSValue.str "") :
    (∀ e, page.querySelector c.Selector = Except.ok (some e) →
        getElementDetails page c = Except.ok JSValue.null ∨
          ∃ s, s ≠ "" ∧ getElementDetails page c = Except.ok (JSValue.str s)) ∧
      ∃ reports, compareWebContent puppeteer url comparisons =
          (Except.ok reports, BrowserState.closed) ∧
        ∃ r ∈ reports, r.MonitorID = c.MonitorID ∧ r.Selector = c.Selector ∧
          r.Type_ = c.Type_ ∧ r.Attributes = c.Attributes ∧
          r.ExpectedValue = JSValue.str "" ∧
          getElementDetails page c = Except.ok r.CurrentValue := by
  have hshape : ∀ e, page.querySelector c.Selector = Except.ok (some e) →
      getElementDetails page c = Except.ok JSValue.null ∨
        ∃ s, s ≠ "" ∧ getElementDetails page c = Except.ok (JSValue.str s) := by
    intro e hm
    rw [getElementDetails_of_match hm, ht]
    rcases evaluateElement_text_nonempty e c.Attributes with h | ⟨s, hs, h⟩
    · exact Or.inl (by rw [h])
    · exact Or.inr ⟨s, hs, by rw [h]⟩
  refine ⟨hshape, ?_⟩
  obtain ⟨reports, hrun, hmem⟩ :=
    compareWebContent_reports puppeteer url page comparisons hl hn hg hx
  obtain ⟨v, hv⟩ := hx c hc
  have hne : v ≠ JSValue.str "" := by
    cases hq : page.querySelector c.Selector with
    | error err =>
      simp only [getElementDetails, pageFunction, hq] at hv
      cases hv
    | ok m =>
      cases m with
      | none =>
        simp only [getElementDetails, pageFunction, hq] at hv
        cases hv
        intro hcontra
        cases hcontra
      | some e =>
        rcases hshape e hq with h | ⟨s, hs, h⟩
        · rw [hv] at h
          cases h
          intro hcontra
          cases hcontra
        · rw [hv] at h
          cases h
          intro hcontra
          exact hs (JSValue.str.inj hcontra)
  refine ⟨reports, hrun, mkReport c v, (hmem _).2 ⟨c, hc, v, hv, ?_, rfl⟩,
    rfl, rfl, rfl, rfl, hval, hv⟩
  rw [hval]
  exact differs_of_ne hne

/-- C19, on an input: the text monitor that stores the empty string is reported
on a page whose `#title` has an empty text content; the value read is `null`. -/
theorem C19_text_never_empty_string_witness :
    ∃ reports, compareWebContent
        (Scenario.browser (Scenario.pageWith "#title" (Scenario.textElement (some ""))))
        "https://example.test/" [Scenario.emptyTextMonitor] =
        (Except.ok reports, BrowserState.closed) ∧
      ∃ r ∈ reports, r.MonitorID = 5 ∧ r.ExpectedValue = JSValue.str "" ∧
        r.CurrentValue = JSValue.null := by
  obtain ⟨_, reports, hrun, r, hr, h1, _, _, _, h5, h6⟩ := C19_text_never_empty_string
    (Scenario.browser (Scenario.pageWith "#title" (Scenario.textElement (some ""))))
    "https://example.test/"
    (Scenario.pageWith "#title" (Scenario.textElement (some "")))
    [Scenario.emptyTextMonitor] Scenario.emptyTextMonitor rfl rfl rfl
    (by
      intro c hc
      rw [List.mem_singleton] at hc
      subst hc
      exact ⟨_, rfl⟩)
    (List.mem_singleton.2 rfl) rfl rfl
  have e1 : getElementDetails (Scenario.pageWith "#title" (Scenario.textElement (some "")))
      Scenario.emptyTextMonitor = Except.ok JSValue.null := rfl
  rw [e1] at h6
  exact ⟨reports, hrun, r, hr, h1, h5, (Except.ok.inj h6).symm⟩

end WebCompare
